import Mathlib

/-!
Verification of the TenderAgent MSP tender-enrichment pipeline.

This file gives a shallow embedding, in Lean 4, of the pure rule-based
enrichment pipeline of the repository:

* `app/scoring.py`   — keyword relevance scoring (`score_tender`)
* `app/cpv_codes.py` — CPV reference-set matching (`matches_cpv`)
* `app/segments.py`  — segment detection, MSP-fit scoring, client
  classification, certification detection, value estimation and signal
  detection (the refined pipeline)
* `main.py`          — the legacy pipeline (`keyword_in_text`,
  `match_segments`, `calculate_msp_fit`, `schat_waarde`,
  `detect_signalen`)
* `app/main.py`      — the FastAPI wrapper `_format_tender` (modelled at
  the level of Python call semantics for its keyword arguments)

Python strings are modelled as Lean `String`s; `str.lower` is modelled as
ASCII lowercasing (all keyword-table entries are ASCII or already
lowercase).  Python `in` on strings is contiguous-substring containment.
Python dict/list values are modelled with records and lists; integer
arithmetic is exact (`Int`/`Nat`).  Regular expressions appearing in the
source are embedded as bespoke executable matchers whose doc comments
state the regex they implement.
-/

/-- Word-character predicate modelling the regex class `\w` (ASCII model:
letters, digits, underscore). -/
def isWordChar (c : Char) : Bool :=
  c.isAlpha || c.isDigit || c = '_'

/-- ASCII lowercasing of a single character, modelling `str.lower` on the
character sets occurring in the rule tables. -/
def lowerChar (c : Char) : Char :=
  if 'A' ≤ c && c ≤ 'Z' then Char.ofNat (c.toNat + 32) else c

/-- ASCII model of Python `str.lower()`. -/
def lowerStr (s : String) : String :=
  ⟨s.data.map lowerChar⟩

/-- Whitespace characters of the Python regex class `\s` / `str.strip()`
(ASCII model). -/
def isPySpace (c : Char) : Bool :=
  c = ' ' || c = '\t' || c = '\n' || c = '\r' || c = '\x0b' || c = '\x0c'

/-- Containment of `needle` in `hay` as a contiguous character run,
modelling Python `needle in hay` on strings. -/
def hasSub : List Char → List Char → Bool
  | [], needle => needle.isEmpty
  | c :: t, needle => needle.isPrefixOf (c :: t) || hasSub t needle

/-- String-level wrapper for `hasSub`: Python `needle in hay`. -/
def containsSub (hay needle : String) : Bool :=
  hasSub hay.data needle.data

/-- Python `s.split("-")[0]`: everything before the first `-` (the whole
string when no `-` occurs). -/
def beforeDash (s : String) : String :=
  ⟨s.data.takeWhile (fun c => c ≠ '-')⟩

/-- Python `s.strip()` (ASCII whitespace model). -/
def pyStrip (s : String) : String :=
  ⟨((s.data.dropWhile isPySpace).reverse.dropWhile isPySpace).reverse⟩

/-- Python `s.replace(" ", "")`: remove every space character. -/
def removeSpaces (s : String) : String :=
  ⟨s.data.filter (fun c => c ≠ ' ')⟩

/-- Python `s.startswith(p)` (kernel-reducible model on the character
lists). -/
def strStarts (s p : String) : Bool :=
  p.data.isPrefixOf s.data

/-- Python `s.endswith(p)`. -/
def strEnds (s p : String) : Bool :=
  p.data.isSuffixOf s.data

/-- Case-insensitive containment, modelling
`re.compile(re.escape(kw), re.IGNORECASE).search(text)`. -/
def kwSearchCI (kw text : String) : Bool :=
  hasSub (lowerStr text).data (lowerStr kw).data

-- ── app/scoring.py ──────────────────────────────────────────────────────

/-- HIGH_KEYWORDS table of `app/scoring.py` (+15 each). -/
def HIGH_KEYWORDS : List String := [
  "MSP", "managed service", "inhuur", "detachering", "flexibele schil",
  "ICT-inhuur", "IT-inhuur", "raamovereenkomst ICT", "raamovereenkomst IT",
  "DAS ICT", "DAS IT", "dynamisch aankoopsysteem",
  "IT-personeel", "ICT-personeel", "IT-professionals",
  "softwareontwikkeling", "software development",
  "applicatiebeheer", "application management",
  "cloud", "SaaS", "IaaS", "PaaS",
  "cybersecurity", "informatiebeveiliging",
  "data center", "datacentrum", "hosting",
  "werkplekbeheer", "werkplekdiensten",
  "IT-beheer", "ICT-beheer", "IT-dienstverlening",
  "system integration", "systeemintegratie",
  "CRM", "HRM-systeem",
  "netwerk", "infrastructuur",
  "DevOps", "agile", "scrum",
  "toegangscontrolesysteem", "servicemanagementsysteem",
  "klantportaal", "datadistributie"]

/-- MEDIUM_KEYWORDS table of `app/scoring.py` (+5 each). -/
def MEDIUM_KEYWORDS : List String := [
  "digitalisering", "digitale transformatie",
  "informatievoorziening", "informatiesysteem",
  "licentie", "software", "applicatie",
  "server", "storage", "backup",
  "helpdesk", "servicedesk", "support",
  "migratie", "implementatie",
  "advies", "consultancy",
  "project management", "projectmanagement",
  "telefonie", "telecom", "telecommunicatie",
  "website", "webapplicatie", "portaal",
  "database", "databank",
  "training ICT", "opleiding IT"]

/-- NEGATIVE_KEYWORDS table of `app/scoring.py` (−10 each). -/
def SCORING_NEGATIVE_KEYWORDS : List String := [
  "bouw", "wegenbouw", "groenvoorziening", "grondwerk",
  "schoonmaak", "catering", "beveiliging gebouw",
  "medisch", "medicijn", "zorg", "huisarts",
  "transport", "vervoer", "busvervoer",
  "meubilair", "kantoormeubel",
  "drukwerk", "print"]

/-- IT_CPV_PREFIXES of `app/scoring.py`. -/
def IT_CPV_PREFIXES : List String := ["72", "48", "302", "642"]

/-- `_cpv_bonus` of `app/scoring.py`: +25 if any CPV code (the `code`
field of each entry), stripped at the first `-`, starts with an
IT-relevant prefix. -/
def cpv_bonus (cpv_codes : List String) : Int :=
  if cpv_codes.any (fun code =>
      IT_CPV_PREFIXES.any (fun p => strStarts (beforeDash code) p))
  then 25 else 0

/-- Result record of `score_tender`. -/
structure ScoreResult where
  score : Int
  level : String
  matched_keywords : List String
  negative_keywords : List String
  cpv_bonus : Int
  deriving Repr, DecidableEq

/-- `score_tender` of `app/scoring.py`.  CPV entries are modelled by
their `code` strings (`cpv.get("code", "")`). -/
def score_tender (title description : String) (cpv_codes : List String) : ScoreResult :=
  let text := title ++ " " ++ description
  let high_matches := HIGH_KEYWORDS.filter (fun kw => kwSearchCI kw text)
  let medium_matches := MEDIUM_KEYWORDS.filter (fun kw => kwSearchCI kw text)
  let negative_matches := SCORING_NEGATIVE_KEYWORDS.filter (fun kw => kwSearchCI kw text)
  let bonus := cpv_bonus cpv_codes
  let score0 : Int :=
    (high_matches.length : Int) * 15 + (medium_matches.length : Int) * 5
      - (negative_matches.length : Int) * 10 + bonus
  let score := max 0 (min 100 score0)
  let level := if score ≥ 50 then "hoog" else if score ≥ 20 then "midden" else "laag"
  { score := score
    level := level
    matched_keywords := high_matches ++ medium_matches
    negative_keywords := negative_matches
    cpv_bonus := bonus }

-- ── app/cpv_codes.py ────────────────────────────────────────────────────

/-- The reference CPV code set of `app/cpv_codes.py` (the keys of the
`CPV_CODES` dict, in declaration order). -/
def CPV_CODES : List String := [
  "72000000", "72100000", "72200000", "72210000", "72220000", "72230000",
  "72240000", "72250000", "72260000", "72300000", "72310000", "72320000",
  "72400000", "72500000", "72600000", "72700000", "72800000", "72900000",
  "48000000", "48100000", "48200000", "48300000", "48400000", "48500000",
  "48600000", "48700000", "48800000", "48900000",
  "30200000", "30210000", "30230000",
  "64200000", "64210000", "64220000",
  "79500000", "50300000"]

/-- `matches_cpv` of `app/cpv_codes.py`: strip the check-digit suffix and
surrounding whitespace, test exact membership, then the 3-digit
parent-division fallback. -/
def matches_cpv (code : String) : Bool :=
  let clean := pyStrip (beforeDash code)
  if CPV_CODES.contains clean then true
  else CPV_CODES.any (fun cpv =>
    strStarts clean ⟨cpv.data.take 3⟩ && strEnds cpv "00000")

-- ── app/segments.py: segment detection ──────────────────────────────────

/-- One entry of the SEGMENTS table of `app/segments.py`. -/
structure SegmentConfig where
  label : String
  cpv : List String
  strong : List String
  weak : List String

/-- SEGMENTS table of `app/segments.py`, in dict declaration order. -/
def SEGMENTS : List SegmentConfig := [
  { label := "Werkplek & Eindgebruikersbeheer"
    cpv := ["30200000", "30210000", "30230000"]
    strong := [
      "werkplekbeheer", "workplace management", "endpoint management",
      "dwr", "digitale werkomgeving", "printbeheer", "printer",
      "multifunctional", "mfp", "repro", "kantoorautomatisering",
      "desktop beheer", "modern workplace", "microsoft 365", "m365",
      "office 365"]
    weak := ["werkplek", "desktop", "laptop", "print", "endpoint",
             "servicedesk", "telefonie"] },
  { label := "Cloud & Hosting"
    cpv := ["72400000", "72410000"]
    strong := [
      "hosting", "iaas", "paas", "cloudmigratie", "vmware",
      "virtualisatie", "compute", "storage", "backup", "datacenter",
      "azure", "aws", "containerisatie", "hybride cloud"]
    weak := ["cloud", "saas", "as a service", "online platform",
             "webapplicatie", "migratie"] },
  { label := "Cybersecurity"
    cpv := ["48730000"]
    strong := [
      "soc", "siem", "penetratietest", "pentest",
      "vulnerability scan", "vulnerability assessment",
      "informatiebeveiliging", "cybersecurity",
      "security operations", "soar", "dreigingsanalyse",
      "incident response"]
    weak := ["security", "beveiliging", "toegangscontrole",
             "access control", "identity", "iam", "authenticatie",
             "autorisatie"] },
  { label := "Netwerk & Connectiviteit"
    cpv := ["64200000", "32400000", "32420000"]
    strong := [
      "sd-wan", "lan", "wan", "firewall", "connectiviteit",
      "glasvezel", "wifi", "wlan", "switching", "routing",
      "vpn"]
    weak := ["netwerk", "telecom"] },
  { label := "Applicatiebeheer"
    cpv := ["72260000"]
    strong := [
      "applicatiebeheer", "softwareimplementatie", "zaaksysteem",
      "servicemanagement", "itsm", "erp-implementatie",
      "crm-implementatie", "document management"]
    weak := ["systeem", "applicatie", "platform", "portaal",
             "software", "erp", "crm", "hrm", "dms", "cms",
             "ticketing", "informatiebeheer", "klantvolgsysteem",
             "salarisadministratie"] },
  { label := "Data & BI"
    cpv := ["48600000"]
    strong := [
      "datawarehouse", "business intelligence", "power bi",
      "tableau", "datafundament", "data-integratie", "etl",
      "analytics", "rapportage"]
    weak := ["data", "bi", "dashboard", "digitaal"] }]

/-- FULL_SERVICE_LABEL of `app/segments.py`. -/
def FULL_SERVICE_LABEL : String := "Full-service"

/-- FULL_SERVICE_THRESHOLD of `app/segments.py`. -/
def FULL_SERVICE_THRESHOLD : Nat := 3

/-- `_text_has_any` of `app/segments.py`: case-insensitive plain
substring check of each keyword against the text. -/
def text_has_any (text : String) (keywords : List String) : Bool :=
  keywords.any (fun kw => hasSub (lowerStr text).data (lowerStr kw).data)

/-- `_cpv_matches` of `app/segments.py`: any tender CPV code (stripped at
the first `-` and with spaces removed) starts with one of the segment's
CPV prefixes.  Entries are modelled by their code strings. -/
def cpv_matches (tender_cpv_codes seg_cpv_list : List String) : Bool :=
  tender_cpv_codes.any (fun code =>
    seg_cpv_list.any (fun p => strStarts (removeSpaces (beforeDash code)) p))

/-- `detect_segments` of `app/segments.py`: strong keyword or CPV match
assigns a segment; otherwise weak keyword plus CPV match assigns it; the
Full-service label is appended when at least FULL_SERVICE_THRESHOLD base
segments matched. -/
def detect_segments (naam beschrijving : String) (cpv_codes : List String) : List String :=
  let text := naam ++ " " ++ beschrijving
  let matched := SEGMENTS.filterMap (fun config =>
    if text_has_any text config.strong || cpv_matches cpv_codes config.cpv then
      some config.label
    else if text_has_any text config.weak && cpv_matches cpv_codes config.cpv then
      some config.label
    else none)
  if matched.length ≥ FULL_SERVICE_THRESHOLD then matched ++ [FULL_SERVICE_LABEL]
  else matched

-- ── app/segments.py: MSP-fit scoring ────────────────────────────────────

/-- `_MSP_INFRA` keyword list of `app/segments.py`. -/
def MSP_INFRA : List String := [
  "compute", "storage", "backup", "datacenter", "werkplekbeheer",
  "endpoint management", "sd-wan", "firewall", "connectiviteit",
  "dwr", "digitale werkomgeving", "cloudmigratie"]

/-- `_MSP_MANAGED` keyword list of `app/segments.py`. -/
def MSP_MANAGED : List String := [
  "beheer en onderhoud", "managed service", "hosting en beheer",
  "monitoring", "as a service"]

/-- `_SOFTWARE_DELIVERY` keyword list of `app/segments.py`. -/
def SOFTWARE_DELIVERY : List String := [
  "erp", "hrm", "e-hrm", "salarisverwerking", "salarisadministratie",
  "salaris-", "financieel systeem", "financieel pakket",
  "woz applicatie", "woz-applicatie", "woz waardering",
  "zaaksysteem", "klantvolgsysteem", "promotie volgsysteem",
  "financieel applicatie"]

/-- `_PHYSICAL_INFRA` keyword list of `app/segments.py`. -/
def PHYSICAL_INFRA : List String := [
  "glasvezel", "civiel", "toegangscontrole", "fysieke beveiliging",
  "meettrein", "voertuigvolg", "audiovisuele middelen",
  "touchscreen", "reizigerstrein", "beeldmateriaal",
  "telsysteem", "laboratorium"]

/-- `_NICHE_SOFTWARE` keyword list of `app/segments.py`. -/
def NICHE_SOFTWARE : List String := [
  "arcgis", "safe exam", "splunk licentie", "epic connect",
  "afas", "exact online", "cris"]

/-- `_MSP_CLIENT_TYPES` of `app/segments.py`. -/
def MSP_CLIENT_TYPES : List String := ["GEMEENTE", "PROVINCIE", "WATERSCHAP", "GR"]

/-- Result record of `score_msp_fit`. -/
structure MspFitResult where
  score : Int
  level : String
  deriving Repr, DecidableEq

/-- `score_msp_fit` of `app/segments.py`.  Every bonus and penalty is
applied independently whenever its keyword list matches the lowered
title+description text. -/
def score_msp_fit (tender_naam beschrijving type_opdracht opdrachtgever_type : String)
    (_segments : List String) : MspFitResult :=
  let text := lowerStr (tender_naam ++ " " ++ beschrijving)
  let score : Int :=
    (if type_opdracht ≠ "" && containsSub (lowerStr type_opdracht) "diensten" then 10 else 0)
    + (if text_has_any text MSP_INFRA then 15 else 0)
    + (if text_has_any text MSP_MANAGED then 15 else 0)
    + (if MSP_CLIENT_TYPES.contains opdrachtgever_type then 10 else 0)
    - (if text_has_any text SOFTWARE_DELIVERY then 25 else 0)
    - (if text_has_any text PHYSICAL_INFRA then 25 else 0)
    - (if text_has_any text NICHE_SOFTWARE then 25 else 0)
  let level := if score > 20 then "MSP-relevant"
               else if score ≥ 0 then "Mogelijk relevant"
               else "Niet MSP"
  { score := score, level := level }

-- ── Regex embedding helpers ─────────────────────────────────────────────

/-- Word-ness of an optional adjacent character (text edges count as
non-word) for `\b` semantics. -/
def wordOpt : Option Char → Bool
  | none => false
  | some c => isWordChar c

/-- Consume a case-insensitive literal from the front of `s`, returning
the rest on success. -/
def stripLitCI : List Char → List Char → Option (List Char)
  | [], s => some s
  | _ :: _, [] => none
  | p :: ps, c :: cs => if lowerChar p = lowerChar c then stripLitCI ps cs else none

/-- Consume a case-sensitive literal from the front of `s`. -/
def stripLit : List Char → List Char → Option (List Char)
  | [], s => some s
  | _ :: _, [] => none
  | p :: ps, c :: cs => if p = c then stripLit ps cs else none

/-- Run a position matcher `f` (receiving the previous character and the
current suffix) at every position of the text, as `re.search` does. -/
def scanText (f : Option Char → List Char → Bool) : Option Char → List Char → Bool
  | prev, [] => f prev []
  | prev, c :: rest => f prev (c :: rest) || scanText f (some c) rest

/-- Literal `b` matches here (case-insensitive), rest unconstrained. -/
def litNoEnd (b s : List Char) : Bool :=
  (stripLitCI b s).isSome

/-- Literal `b` matches here followed by a word boundary. -/
def litThenEnd (b s : List Char) : Bool :=
  match stripLitCI b s with
  | some rest => !wordOpt rest.head?
  | none => false

/-- Tail of a pattern `[\s\-]?B`: optional single space/hyphen then
literal `b` (both regex alternatives tried). -/
def sepOptThen (b s : List Char) : Bool :=
  litNoEnd b s ||
  (match s with
   | c :: cs => (isPySpace c || c = '-') && litNoEnd b cs
   | [] => false)

/-- Tail of a pattern `[\s\-]?B\b`. -/
def sepOptThenEnd (b s : List Char) : Bool :=
  litThenEnd b s ||
  (match s with
   | c :: cs => (isPySpace c || c = '-') && litThenEnd b cs
   | [] => false)

/-- Tail of a pattern `\s+B`: at least one whitespace character then
literal `b` (which never begins with whitespace). -/
def spacedThen (b s : List Char) : Bool :=
  match s with
  | c :: cs => isPySpace c && litNoEnd b (cs.dropWhile isPySpace)
  | [] => false

/-- Matcher for `(?i)A[\s\-]?B` (no word boundaries), e.g.
`ISO[\s\-]?27001`. -/
def reSepPat (a b text : String) : Bool :=
  scanText (fun _ s =>
    match stripLitCI a.data s with
    | some rest => sepOptThen b.data rest
    | none => false) none text.data

/-- Matcher for `(?i)\bA[\s\-]?B\b`, e.g. `\bSOC[\s\-]?2\b`. -/
def reWordSepPat (a b text : String) : Bool :=
  scanText (fun prev s =>
    !wordOpt prev &&
    match stripLitCI a.data s with
    | some rest => sepOptThenEnd b.data rest
    | none => false) none text.data

/-- Matcher for `(?i)\bW\b` where `W` consists of word characters. -/
def reWord (w text : String) : Bool :=
  scanText (fun prev s =>
    !wordOpt prev && litThenEnd w.data s) none text.data

/-- Matcher for `(?i)A\s+B` (no word boundaries), e.g.
`Baseline\s+Informatiebeveiliging`. -/
def reSpacedPat (a b text : String) : Bool :=
  scanText (fun _ s =>
    match stripLitCI a.data s with
    | some rest => spacedThen b.data rest
    | none => false) none text.data

/-- Matcher for `(?i)\bA\s+B`, e.g. `\bWet\s+politiegegeven`. -/
def reWordSpacedPat (a b text : String) : Bool :=
  scanText (fun prev s =>
    !wordOpt prev &&
    match stripLitCI a.data s with
    | some rest => spacedThen b.data rest
    | none => false) none text.data

/-- Helper for `A.*B`: find `b` later in the current line (the regex `.`
does not cross a newline). -/
def litHereThenSameLine (b : List Char) : List Char → Bool
  | [] => litNoEnd b []
  | c :: cs => litNoEnd b (c :: cs) || (c ≠ '\n' && litHereThenSameLine b cs)

/-- Matcher for `(?i)A.*B`: `a` somewhere, then `b` further right on the
same line. -/
def inOrderCI (a b text : String) : Bool :=
  scanText (fun _ s =>
    match stripLitCI a.data s with
    | some rest => litHereThenSameLine b.data rest
    | none => false) none text.data

/-- Matcher for `(?i)\bGR\s+[A-Z]` (the `_GR_PREFIX` pattern of
`app/segments.py`): word-bounded `GR`, whitespace, then a letter (the
class `[A-Z]` is case-insensitive under the `(?i)` flag). -/
def grMatch (text : String) : Bool :=
  scanText (fun prev s =>
    !wordOpt prev &&
    match stripLitCI "gr".data s with
    | some rest =>
      match rest with
      | c :: cs => isPySpace c &&
          (match cs.dropWhile isPySpace with
           | d :: _ => d.isAlpha
           | [] => false)
      | [] => false
    | none => false) none text.data

-- ── app/segments.py: certification detection ────────────────────────────

/-- One entry of the CERTIFICATIONS table of `app/segments.py`; `test` is
the embedding of the entry's regex. -/
structure CertPattern where
  name : String
  category : String
  test : String → Bool

/-- CERTIFICATIONS table of `app/segments.py`; each `test` embeds the
regex given in the source. -/
def CERTIFICATIONS : List CertPattern := [
  ⟨"ISO 27001", "security", fun t => reSepPat "ISO" "27001" t⟩,
  ⟨"ISO 9001", "quality", fun t => reSepPat "ISO" "9001" t⟩,
  ⟨"ISO 14001", "other", fun t => reSepPat "ISO" "14001" t⟩,
  ⟨"NEN 7510", "security", fun t => reSepPat "NEN" "7510" t⟩,
  ⟨"ISAE 3402", "quality", fun t => reSepPat "ISAE" "3402" t⟩,
  ⟨"SOC 2", "security", fun t => reWordSepPat "SOC" "2" t⟩,
  ⟨"BIO", "security", fun t => reWord "BIO" t || reSpacedPat "Baseline" "Informatiebeveiliging" t⟩,
  ⟨"DigiD", "security", fun t => reWord "DigiD" t⟩,
  ⟨"Wpg", "other", fun t => reWord "Wpg" t || reWordSpacedPat "Wet" "politiegegeven" t⟩,
  ⟨"NIS2", "security", fun t => reWordSepPat "NIS" "2" t⟩,
  ⟨"DORA", "security", fun t => reWord "DORA" t⟩,
  ⟨"PSO", "social", fun t =>
      reWord "PSO" t || reSpacedPat "Prestatieladder" "Social" t || reSpacedPat "socialer" "ondernemen" t⟩,
  ⟨"CO2-prestatieladder", "social", fun t => reSepPat "CO2" "prestatieladder" t⟩,
  ⟨"SROI", "social", fun t => reWord "SROI" t || reSpacedPat "Social" "Return" t⟩]

/-- One entry of the IMPLIED_CERTIFICATIONS table of `app/segments.py`. -/
structure ImpliedCertPattern where
  name : String
  category : String
  excludes : List String
  test : String → Bool

/-- IMPLIED_CERTIFICATIONS table of `app/segments.py`. -/
def IMPLIED_CERTIFICATIONS : List ImpliedCertPattern := [
  ⟨"ISO 27001", "security", ["ISO 27001"], fun t => kwSearchCI "informatiebeveilig" t⟩,
  ⟨"NEN 7510", "security", ["NEN 7510"], fun t =>
      inOrderCI "zorg" "informatiebeveilig" t || inOrderCI "informatiebeveilig" "zorg" t⟩,
  ⟨"BIO", "security", ["BIO"], fun t =>
      ["overheid", "gemeente", "provincie", "rijks", "waterschap"].any (fun w =>
        inOrderCI "informatiebeveilig" w t || inOrderCI w "informatiebeveilig" t)⟩]

/-- Output record of `detect_certifications`. -/
structure CertFound where
  name : String
  category : String
  implied : Bool
  deriving Repr, DecidableEq

/-- The implied-certification loop of `detect_certifications`, with the
incremental `found_names` accumulation of the source. -/
def detectImpliedAux (text : String) : List ImpliedCertPattern → List String → List CertFound
  | [], _ => []
  | c :: rest, found_names =>
    if found_names.contains c.name then detectImpliedAux text rest found_names
    else if c.excludes.any (fun e => found_names.contains e) then
      detectImpliedAux text rest found_names
    else if c.test text then
      ⟨c.name ++ "?", c.category, true⟩ :: detectImpliedAux text rest (found_names ++ [c.name])
    else detectImpliedAux text rest found_names

/-- `detect_certifications` of `app/segments.py`. -/
def detect_certifications (naam beschrijving : String) : List CertFound :=
  let text := naam ++ " " ++ beschrijving
  let explicitHits := CERTIFICATIONS.filter (fun c => c.test text)
  let found := explicitHits.map (fun c => CertFound.mk c.name c.category false)
  let found_names := explicitHits.map (fun c => c.name)
  found ++ detectImpliedAux text IMPLIED_CERTIFICATIONS found_names

-- ── app/segments.py: opdrachtgever classification ───────────────────────

/-- OPDRACHTGEVER_RULES of `app/segments.py` (order matters: more
specific matches first). -/
def OPDRACHTGEVER_RULES : List (String × List String) := [
  ("RIJK_VITAAL", ["rijkswaterstaat", "prorail"]),
  ("GR", ["gemeenschappelijke regeling", "gemeenschappelijk regeling", "samenwerkingsverband"]),
  ("ZORG", ["ziekenhuis", "ggz", "ggd", "zorggroep", "huisartsen",
            "medisch centrum", "umc "]),
  ("RIJK", ["ministerie", "politie", "raad van state", "hoge raad",
            "eerste kamer", "tweede kamer", "rekenkamer"]),
  ("ZBO", ["uwv", "svb", "duo", "belastingdienst", "rivm", "rvo",
           "rdw", "dienst wegverkeer", "kadaster", "knmi", "cbs",
           "autoriteit persoonsgegevens"]),
  ("WATERSCHAP", ["waterschap", "hoogheemraadschap", "wetterskip"]),
  ("GEMEENTE", ["gemeente"]),
  ("PROVINCIE", ["provincie"]),
  ("ONDERWIJS", ["universiteit", "hogeschool", " roc ", "lyceum", "scholengemeenschap"]),
  ("PUBLIEK_SOCIAAL", ["emco", "sociale werkvoorziening", "sw-bedrijf"])]

/-- First-match-wins traversal of the ordered rule list of
`classify_opdrachtgever`. -/
def classifyRules : List (String × List String) → String → Option String
  | [], _ => none
  | (cat, kws) :: rest, name_lower =>
    if kws.any (fun kw => hasSub name_lower.data (lowerStr kw).data) then some cat
    else classifyRules rest name_lower

/-- `classify_opdrachtgever` of `app/segments.py`: the three special
regexes (`\bRWS\b`, `\bGR\s+[A-Z]`, `stichting.*onderwijs|...`) take
priority over the ordered keyword rules. -/
def classify_opdrachtgever (opdrachtgever : String) : String :=
  if reWord "RWS" opdrachtgever then "RIJK_VITAAL"
  else if grMatch opdrachtgever then "GR"
  else if inOrderCI "stichting" "onderwijs" opdrachtgever
       || inOrderCI "onderwijs" "stichting" opdrachtgever then "ONDERWIJS"
  else match classifyRules OPDRACHTGEVER_RULES (lowerStr opdrachtgever) with
       | some cat => cat
       | none => "OVERIG"

-- ── app/segments.py: expected requirements ──────────────────────────────

/-- One expected-requirement entry. -/
structure Requirement where
  name : String
  category : String
  level : String
  deriving Repr, DecidableEq

/-- LEVEL_PRIORITY of `app/segments.py` as a total function (the source
uses `.get(level, 0)`). -/
def LEVEL_PRIORITY (level : String) : Nat :=
  if level = "verplicht" then 4
  else if level = "waarschijnlijk" then 3
  else if level = "gebruikelijk" then 2
  else if level = "mogelijk" then 1
  else 0

/-- EXPECTED_REQUIREMENTS table of `app/segments.py`. -/
def EXPECTED_REQUIREMENTS : List (String × List Requirement) := [
  ("GEMEENTE", [⟨"BIO", "security", "verplicht"⟩,
                ⟨"ISO 27001", "security", "waarschijnlijk"⟩,
                ⟨"SROI", "social", "gebruikelijk"⟩]),
  ("PROVINCIE", [⟨"BIO", "security", "verplicht"⟩,
                 ⟨"ISO 27001", "security", "waarschijnlijk"⟩,
                 ⟨"SROI", "social", "gebruikelijk"⟩]),
  ("WATERSCHAP", [⟨"BIO", "security", "verplicht"⟩,
                  ⟨"ISO 27001", "security", "waarschijnlijk"⟩,
                  ⟨"SROI", "social", "gebruikelijk"⟩]),
  ("GR", [⟨"BIO", "security", "verplicht"⟩,
          ⟨"ISO 27001", "security", "waarschijnlijk"⟩,
          ⟨"SROI", "social", "gebruikelijk"⟩]),
  ("RIJK", [⟨"BIO", "security", "verplicht"⟩,
            ⟨"ISO 27001", "security", "waarschijnlijk"⟩,
            ⟨"DigiD", "security", "mogelijk"⟩,
            ⟨"ISAE 3402", "quality", "mogelijk"⟩]),
  ("ZBO", [⟨"BIO", "security", "verplicht"⟩,
           ⟨"ISO 27001", "security", "waarschijnlijk"⟩,
           ⟨"DigiD", "security", "mogelijk"⟩,
           ⟨"ISAE 3402", "quality", "mogelijk"⟩]),
  ("RIJK_VITAAL", [⟨"BIO", "security", "verplicht"⟩,
                   ⟨"ISO 27001", "security", "waarschijnlijk"⟩,
                   ⟨"ISAE 3402", "quality", "waarschijnlijk"⟩,
                   ⟨"NIS2", "security", "waarschijnlijk"⟩]),
  ("ZORG", [⟨"NEN 7510", "security", "verplicht"⟩,
            ⟨"ISO 27001", "security", "waarschijnlijk"⟩,
            ⟨"BIO", "security", "mogelijk"⟩]),
  ("ONDERWIJS", [⟨"ISO 27001", "security", "mogelijk"⟩,
                 ⟨"AVG/DPIA", "security", "waarschijnlijk"⟩]),
  ("PUBLIEK_SOCIAAL", [⟨"BIO", "security", "waarschijnlijk"⟩,
                       ⟨"PSO", "social", "waarschijnlijk"⟩,
                       ⟨"SROI", "social", "gebruikelijk"⟩])]

/-- Association-list lookup modelling Python `dict.get`. -/
def lookupBy {κ α : Type} [DecidableEq κ] : List (κ × α) → κ → Option α
  | [], _ => none
  | (k, v) :: t, key => if k = key then some v else lookupBy t key

/-- In-place level update of a named requirement, modelling the mutation
of the ordered `result` dict entry (names in each table row are
distinct). -/
def setLevel (reqs : List Requirement) (nm lvl : String) : List Requirement :=
  reqs.map (fun r => if r.name = nm then ⟨r.name, r.category, lvl⟩ else r)

/-- `get_expected_requirements` of `app/segments.py`.  The `result` dict
keyed by requirement name (all names per table row distinct, kept in
insertion order) is modelled directly by the table row; the Cybersecurity
segment upgrades or inserts `ISO 27001` at level `waarschijnlijk`. -/
def get_expected_requirements (opdrachtgever : String) (segments : List String) :
    List Requirement :=
  let category := classify_opdrachtgever opdrachtgever
  let reqs := (lookupBy EXPECTED_REQUIREMENTS category).getD []
  if segments.contains "Cybersecurity" then
    if reqs.any (fun r => r.name = "ISO 27001") then
      let cur := ((reqs.find? (fun r => r.name = "ISO 27001")).map (fun r => r.level)).getD ""
      if LEVEL_PRIORITY cur < LEVEL_PRIORITY "waarschijnlijk" then
        setLevel reqs "ISO 27001" "waarschijnlijk"
      else reqs
    else if category ≠ "OVERIG" then
      reqs ++ [⟨"ISO 27001", "security", "waarschijnlijk"⟩]
    else reqs
  else reqs

-- ── app/segments.py: value estimation ───────────────────────────────────

/-- EU_THRESHOLD_DIENSTEN of `app/segments.py`. -/
def EU_THRESHOLD_DIENSTEN : Nat := 221000

/-- EU_THRESHOLD_WERKEN of `app/segments.py`. -/
def EU_THRESHOLD_WERKEN : Nat := 5538000

/-- `_SEGMENT_CATEGORIES` of `app/segments.py`. -/
def SEGMENT_CATEGORIES : List (String × String) := [
  ("Werkplek & Eindgebruikersbeheer", "infra"),
  ("Cloud & Hosting", "infra"),
  ("Netwerk & Connectiviteit", "infra"),
  ("Cybersecurity", "infra"),
  ("Applicatiebeheer", "applicatie"),
  ("Data & BI", "applicatie"),
  ("Full-service", "infra")]

/-- `_VALUE_MATRIX` of `app/segments.py`. -/
def VALUE_MATRIX : List ((String × String) × (Nat × Nat)) := [
  (("GEMEENTE", "infra"), (200000, 1000000)),
  (("GEMEENTE", "applicatie"), (100000, 500000)),
  (("GR", "infra"), (300000, 2000000)),
  (("GR", "applicatie"), (300000, 2000000)),
  (("PROVINCIE", "infra"), (300000, 2000000)),
  (("PROVINCIE", "applicatie"), (300000, 2000000)),
  (("WATERSCHAP", "infra"), (200000, 1000000)),
  (("WATERSCHAP", "applicatie"), (200000, 1000000)),
  (("RIJK", "infra"), (500000, 5000000)),
  (("RIJK", "applicatie"), (500000, 5000000)),
  (("ZBO", "infra"), (500000, 5000000)),
  (("ZBO", "applicatie"), (500000, 5000000)),
  (("RIJK_VITAAL", "infra"), (500000, 5000000)),
  (("RIJK_VITAAL", "applicatie"), (500000, 5000000)),
  (("ONDERWIJS", "infra"), (50000, 300000)),
  (("ONDERWIJS", "applicatie"), (50000, 300000)),
  (("PUBLIEK_SOCIAAL", "infra"), (50000, 300000)),
  (("PUBLIEK_SOCIAAL", "applicatie"), (50000, 300000)),
  (("ZORG", "infra"), (100000, 1000000)),
  (("ZORG", "applicatie"), (100000, 1000000))]

/-- Append an element unless already present (insertion-ordered set
model). -/
def insertUniq (l : List String) (x : String) : List String :=
  if l.contains x then l else l ++ [x]

/-- The `seg_cats` set of `estimate_value`, modelled as the
insertion-ordered deduplicated list of looked-up categories (only
emptiness and the collected value ranges — which are aggregated by
min/max, hence order-independent — are consumed downstream). -/
def seg_categories (segments : List String) : List String :=
  segments.foldl (fun acc seg =>
    match lookupBy SEGMENT_CATEGORIES seg with
    | some cat => insertUniq acc cat
    | none => acc) []

/-- Rounding of `n / d` to the nearest integer, ties to even, modelling
Python float formatting of exact decimal fractions. -/
def natRoundHalfEven (n d : Nat) : Nat :=
  let q := n / d
  let r := n % d
  if 2 * r < d then q
  else if 2 * r > d then q + 1
  else if q % 2 = 0 then q else q + 1

/-- `_format_eur` of `app/segments.py`.  The Python float formatting
(`f"{m:.1f}M"` / `f"{k:.0f}K"`) is modelled by exact rational rounding
with ties to even; the source's `.replace(".0M", "M")` is the
`tenths % 10 = 0` branch. -/
def format_eur (val : Nat) : String :=
  if val ≥ 1000000 then
    if val % 1000000 = 0 then toString (val / 1000000) ++ "M"
    else
      let tenths := natRoundHalfEven (val * 10) 1000000
      if tenths % 10 = 0 then toString (tenths / 10) ++ "M"
      else toString (tenths / 10) ++ "." ++ toString (tenths % 10) ++ "M"
  else if val ≥ 1000 then
    if val % 1000 = 0 then toString (val / 1000) ++ "K"
    else toString (natRoundHalfEven val 1000) ++ "K"
  else toString val

/-- Result record of `estimate_value`. -/
structure ValueEstimate where
  min_value : Option Nat
  max_value : Option Nat
  display : String
  confidence : String
  deriving Repr, DecidableEq

/-- The range-collection loop of `estimate_value`: the `(min, max)`
pairs found in the value matrix for the categories present. -/
def estimate_value_ranges (opdrachtgever_type : String) (cats : List String) :
    List (Nat × Nat) :=
  cats.filterMap (fun cat => lookupBy VALUE_MATRIX (opdrachtgever_type, cat))

/-- The aggregation-and-EU-floor tail of `estimate_value`: broadest range
(min of mins, max of maxes), the EU floor on the minimum, and the
widening of the maximum to three times the floored minimum when the floor
exceeds it. -/
def estimate_value_from_pairs (europees : Bool) (type_opdracht : String)
    (seg_cats_nonempty : Bool) : List (Nat × Nat) → ValueEstimate
  | [] => ⟨none, none, "?", "laag"⟩
  | p :: ps =>
    let est_min0 := ps.foldl (fun a q => min a q.1) p.1
    let est_max0 := ps.foldl (fun a q => max a q.2) p.2
    let eu_floor := if containsSub (lowerStr type_opdracht) "werken" then
        EU_THRESHOLD_WERKEN else EU_THRESHOLD_DIENSTEN
    let est_min := if europees then max est_min0 eu_floor else est_min0
    let est_max := if europees && est_max0 < est_min then est_min * 3 else est_max0
    let confidence := if europees && seg_cats_nonempty then "hoog"
                      else if seg_cats_nonempty then "midden"
                      else "laag"
    ⟨some est_min, some est_max,
     "€" ++ format_eur est_min ++ "-" ++ format_eur est_max, confidence⟩

/-- `estimate_value` of `app/segments.py`.  `naam` and `beschrijving` are
accepted but unused, exactly as in the source. -/
def estimate_value (europees : Bool) (type_opdracht opdrachtgever_type : String)
    (segments : List String) (_naam _beschrijving : String) : ValueEstimate :=
  let seg_cats := seg_categories segments
  if seg_cats.isEmpty && opdrachtgever_type = "OVERIG" then
    ⟨none, none, "?", "laag"⟩
  else
    estimate_value_from_pairs europees type_opdracht (!seg_cats.isEmpty)
      (estimate_value_ranges opdrachtgever_type
        (if seg_cats.isEmpty then ["infra"] else seg_cats))

-- ── app/segments.py: signal detection ───────────────────────────────────

/-- `_DIENST_KEYWORDS` of `app/segments.py`. -/
def DIENST_KEYWORDS : List String := ["beheer", "onderhoud", "managed", "hosting", "monitoring"]

/-- `_TRANSITIE_KEYWORDS` of `app/segments.py`. -/
def TRANSITIE_KEYWORDS : List String := [
  "huidige leverancier", "transitie", "huidige dienstverlener",
  "huidige omgeving", "huidige partij", "huidige contractant",
  "overname van", "overdracht"]

/-- `_SYSTEM_CATEGORIES` of `app/segments.py`. -/
def SYSTEM_CATEGORIES : List (String × List String) := [
  ("salaris", ["salaris", "loon"]),
  ("hrm", ["hrm", "e-hrm", "personeels"]),
  ("klantvolg", ["klantvolg", "crm", "relatiebeheersysteem"]),
  ("erp", ["erp", "financieel systeem", "financieel pakket"]),
  ("zaak", ["zaaksysteem", "zaakgericht"]),
  ("dms", ["dms", "document management", "documentbeheer"])]

/-- `_INFRA_SEGMENTS` of `app/segments.py`. -/
def INFRA_SEGMENTS : List String :=
  ["Werkplek & Eindgebruikersbeheer", "Cloud & Hosting", "Netwerk & Connectiviteit"]

/-- `_HEAVY_REQUIREMENTS` of `app/segments.py`. -/
def HEAVY_REQUIREMENTS : List String := ["verplicht", "waarschijnlijk"]

/-- `_is_small_opdrachtgever` of `app/segments.py`. -/
def is_small_opdrachtgever (opdrachtgever opdrachtgever_type : String) : Bool :=
  opdrachtgever_type = "ONDERWIJS" || opdrachtgever_type = "PUBLIEK_SOCIAAL" ||
  strStarts (lowerStr opdrachtgever) "stichting"

/-- `_count_distinct_systems` of `app/segments.py`. -/
def count_distinct_systems (text : String) : Nat :=
  (SYSTEM_CATEGORIES.filter (fun p =>
    p.2.any (fun kw => hasSub (lowerStr text).data kw.data))).length

/-- One signal record of `detect_signals`. -/
structure Signal where
  type : String
  icon : String
  label : String
  detail : String
  deriving Repr, DecidableEq

/-- Python `", ".join(l)`. -/
def joinComma : List String → String
  | [] => ""
  | [x] => x
  | x :: y :: xs => x ++ ", " ++ joinComma (y :: xs)

/-- `detect_signals` of `app/segments.py` (the refined pipeline).  The
rules D1–D3, O1–O2 and K1–K2 append their records in source order; the
`europees` flag and `certifications` are accepted but unused, exactly as
in the source. -/
def detect_signals (naam beschrijving opdrachtgever opdrachtgever_type type_opdracht : String)
    (_europees : Bool) (segments : List String) (_certifications : List CertFound)
    (expected_requirements : List Requirement) (estimated_value : ValueEstimate) : List Signal :=
  let text := naam ++ " " ++ beschrijving
  let text_lower := lowerStr text
  let d1 :=
    if is_small_opdrachtgever opdrachtgever opdrachtgever_type then
      let heavy_count :=
        (expected_requirements.filter (fun r => HEAVY_REQUIREMENTS.contains r.level)).length
      if heavy_count ≥ 3 then
        [⟨"disproportioneel", "warning", "Zware eisen voor kleine opdrachtgever",
          toString heavy_count ++ " zware vereisten bij " ++ opdrachtgever_type⟩]
      else []
    else []
  let d2 :=
    match estimated_value.max_value with
    | some max_val =>
      if max_val ≤ 300000 then
        let n_segments := (segments.filter (fun s => s ≠ "Full-service")).length
        let n_systems := count_distinct_systems text
        if n_segments ≥ 3 || n_systems ≥ 3 then
          [⟨"disproportioneel", "warning", "Brede scope voor beperkt budget",
            toString n_segments ++ " segmenten, " ++ toString n_systems ++
            " systemen, max €" ++ format_eur max_val⟩]
        else []
      else []
    | none => []
  let d3 :=
    if containsSub (lowerStr type_opdracht) "leveringen" then
      let dienst_found := DIENST_KEYWORDS.filter (fun kw => containsSub text_lower kw)
      if !dienst_found.isEmpty then
        [⟨"disproportioneel", "warning", "Levering of dienst?",
          "Type is Leveringen maar beschrijving bevat: " ++ joinComma dienst_found⟩]
      else []
    else []
  let o1 :=
    if opdrachtgever_type = "GR" || containsSub text_lower "gemeenschappelijke regeling" then
      [⟨"opvallend", "puzzle", "Meerdere organisaties, een contract",
        "Gemeenschappelijke regeling — meerdere deelnemende organisaties"⟩]
    else []
  let o2 :=
    if segments.contains "Werkplek & Eindgebruikersbeheer" && segments.contains "Cybersecurity" then
      [⟨"opvallend", "puzzle", "Werkplek met security-focus",
        "Combineert werkplekbeheer met cybersecurity"⟩]
    else []
  let k1 :=
    if opdrachtgever_type = "GEMEENTE" then
      let has_infra := segments.any (fun s => INFRA_SEGMENTS.contains s)
      let has_dienst := text_has_any text DIENST_KEYWORDS
      match estimated_value.min_value with
      | some min_val =>
        if has_infra && has_dienst && min_val ≥ 200000 then
          [⟨"msp-kans", "check", "Sweet spot MSP",
            "Gemeente + infra + dienstenkenmerken + €200K+"⟩]
        else []
      | none => []
    else []
  let k2 :=
    if TRANSITIE_KEYWORDS.any (fun kw => containsSub text_lower kw) then
      [⟨"msp-kans", "check", "Mogelijke leverancierswisseling",
        "Tekst suggereert overstap van huidige leverancier"⟩]
    else []
  d1 ++ d2 ++ d3 ++ o1 ++ o2 ++ k1 ++ k2

-- ── Composed refined pipeline ───────────────────────────────────────────

/-- Raw tender input record (the fields of the upstream record consumed
by the enrichment components). -/
structure RawTender where
  naam : String
  beschrijving : String
  opdrachtgever : String
  type_opdracht : String
  europees : Bool
  cpv_codes : List String
  deriving Repr, DecidableEq

/-- Combined enrichment bundle. -/
structure EnrichmentResult where
  relevance : ScoreResult
  segments : List String
  client_type : String
  certifications : List CertFound
  expected_requirements : List Requirement
  msp_fit : MspFitResult
  value_estimate : ValueEstimate
  signals : List Signal
  deriving Repr, DecidableEq

/-- The refined enrichment pipeline: the data flow of `_format_tender`
(`app/main.py`) over the components of `app/scoring.py` and
`app/segments.py`, with the component calls made with the parameters the
callees declare. -/
def enrich (t : RawTender) : EnrichmentResult :=
  let scoring := score_tender t.naam t.beschrijving t.cpv_codes
  let segments := detect_segments t.naam t.beschrijving t.cpv_codes
  let certifications := detect_certifications t.naam t.beschrijving
  let og_type := classify_opdrachtgever t.opdrachtgever
  let expected := get_expected_requirements t.opdrachtgever segments
  let msp := score_msp_fit t.naam t.beschrijving t.type_opdracht og_type segments
  let value := estimate_value t.europees t.type_opdracht og_type segments t.naam t.beschrijving
  let signals := detect_signals t.naam t.beschrijving t.opdrachtgever og_type t.type_opdracht
    t.europees segments certifications expected value
  ⟨scoring, segments, og_type, certifications, expected, msp, value, signals⟩

-- ── main.py (legacy pipeline) ───────────────────────────────────────────

/-- Position matcher for the regex `r'\b' + re.escape(kw) + r'\b'` built
by the legacy `keyword_in_text` (case-sensitive search for the lowered
keyword).  The `\b` assertions are the exact regex semantics: word-ness
must differ across each boundary, with text edges counting as non-word.
An empty keyword is modelled as no match (the rule tables contain none). -/
def matchWordAt (pat : List Char) (prev : Option Char) (s : List Char) : Bool :=
  match pat with
  | [] => false
  | p :: ps =>
    match stripLit (p :: ps) s with
    | some rest =>
      (wordOpt prev != isWordChar p) && (isWordChar (ps.getLastD p) != wordOpt rest.head?)
    | none => false

/-- `keyword_in_text` of `main.py`: keywords whose lowered form has at
most 4 characters match via the word-boundary regex; longer keywords are
plain substrings of the text. -/
def keyword_in_text (kw text : String) : Bool :=
  let kwl := lowerStr kw
  if kwl.data.length ≤ 4 then scanText (matchWordAt kwl.data) none text.data
  else hasSub text.data kwl.data

/-- Specification-side predicate: the occurrence of `pat` at the current
position (if any) fails at least one `\b` word-boundary assertion. -/
def strictlyInsideAt (pat : List Char) (prev : Option Char) (s : List Char) : Bool :=
  match pat with
  | [] => true
  | p :: ps =>
    match stripLit (p :: ps) s with
    | some rest =>
      (wordOpt prev == isWordChar p) || (isWordChar (ps.getLastD p) == wordOpt rest.head?)
    | none => true

/-- Specification-side predicate: every occurrence of `pat` in the text
fails a word boundary, i.e. the pattern occurs only inside longer words. -/
def occursOnlyInside (pat : List Char) : Option Char → List Char → Bool
  | prev, [] => strictlyInsideAt pat prev []
  | prev, c :: rest => strictlyInsideAt pat prev (c :: rest) && occursOnlyInside pat (some c) rest

/-- APP_SOFTWARE_INDICATORS of `main.py`. -/
def APP_SOFTWARE_INDICATORS : List String := [
  "salarisverwerking", "salarissoftware", "salaris applicatie", "salarissysteem",
  "e-hrm", "hrm-systeem", "hrm systeem", "personeelsinformatie",
  "woz-applicatie", "woz applicatie", "woz taxatie", "woz waardering",
  "financieel pakket", "financiele applicatie",
  "basisregistratie", "burgerzaken", "vergunningen",
  "klantvolgsysteem", "clientvolgsysteem", "cliëntvolgsysteem",
  "sociaal domein software", "jeugdhulp applicatie"]

/-- PHYSICAL_INFRA_INDICATORS of `main.py`. -/
def PHYSICAL_INFRA_INDICATORS : List String := [
  "meettrein", "civiel", "graafwerk", "aanleg glasvezel",
  "straatverlichting", "verkeersregelinstallatie",
  "fysieke toegangscontrole", "tourniquets", "slagboom",
  "camerabewaking", "cctv", "installatie gebouw",
  "elektrotechnisch", "werktuigbouwkundig"]

/-- The `msp_core` keyword list declared inline in `calculate_msp_fit`
of `main.py`. -/
def MSP_CORE_KEYWORDS : List String := [
  "werkplekbeheer", "werkplek", "compute", "storage", "backup",
  "hosting", "cloud", "datacenter", "infrastructuur", "connectiviteit",
  "managed service", "servicedesk", "helpdesk", "endpoint",
  "digitale werkomgeving", "disaster recovery"]

/-- `calculate_msp_fit` of `main.py` (legacy): the msp-core +15 bonus is
granted only when no APP_SOFTWARE indicator matched.  All summands are
integral, so the Python float score is modelled as `Int`. -/
def calculate_msp_fit (naam beschrijving type_code og_type : String)
    (segmenten : List String) : Int × String :=
  let combined := lowerStr naam ++ " " ++ lowerStr beschrijving
  let is_app := APP_SOFTWARE_INDICATORS.any (fun kw => containsSub combined kw)
  let is_physical := PHYSICAL_INFRA_INDICATORS.any (fun kw => containsSub combined kw)
  let score : Int :=
    (if type_code = "D" then 20 else 0)
    + (if !is_app && MSP_CORE_KEYWORDS.any (fun kw => containsSub combined kw) then 15 else 0)
    + (if og_type = "GEMEENTE" || og_type = "PROVINCIE" || og_type = "WATERSCHAP"
          || og_type = "GR" then 10 else 0)
    + (if (segmenten.filter (fun s => s ≠ "Full-service IT-partner")).length ≥ 2 then 5 else 0)
    - (if is_app then 25 else 0)
    - (if is_physical then 10 else 0)
    - (if type_code = "L" then 10 else 0)
  let label := if score > 20 then "MSP-relevant"
               else if score ≥ 0 then "Mogelijk relevant"
               else "Niet MSP"
  (score, label)

/-- `format_bedrag` of `main.py`.  The `f"€{w/1e6:.1f}M"` float
formatting is modelled by exact rational rounding with ties to even;
`f"€{w//1000}K"` is floor division. -/
def format_bedrag : Option Nat → String
  | none => "?"
  | some w =>
    if w ≥ 1000000 then
      let tenths := natRoundHalfEven (w * 10) 1000000
      "€" ++ toString (tenths / 10) ++ "." ++ toString (tenths % 10) ++ "M"
    else if w ≥ 1000 then "€" ++ toString (w / 1000) ++ "K"
    else "€" ++ toString w

/-- Result tuple of the legacy `schat_waarde`. -/
structure SchatResult where
  v_min : Option Nat
  v_max : Option Nat
  bron : String
  weergave : String
  deriving Repr, DecidableEq

/-- The `is_infra` keyword list declared inline in `schat_waarde` of
`main.py`. -/
def SCHAT_INFRA_KEYWORDS : List String := [
  "compute", "storage", "hosting", "datacenter", "cloud",
  "infrastructuur", "connectiviteit", "werkplekbeheer"]

/-- The heuristic tail of `schat_waarde` (the code after the
stated-value early return). -/
def schatHeuristiek (europees : Bool) (naam beschrijving og_type : String) : SchatResult :=
  let combined := lowerStr naam ++ " " ++ lowerStr beschrijving
  let is_infra := SCHAT_INFRA_KEYWORDS.any (fun kw => containsSub combined kw)
  let is_app := APP_SOFTWARE_INDICATORS.any (fun kw => containsSub combined kw)
  let vrange : Option (Nat × Nat) :=
    if og_type = "GEMEENTE" then
      if is_infra then some (200000, 1000000)
      else if is_app then some (100000, 500000)
      else some (100000, 750000)
    else if og_type = "GR" then some (300000, 2000000)
    else if og_type = "RIJK" || og_type = "RIJK_VITAAL" || og_type = "ZBO" then
      some (500000, 5000000)
    else if og_type = "ZORG" then some (100000, 500000)
    else if og_type = "ONDERWIJS" then some (50000, 300000)
    else if og_type = "PUBLIEK_SOCIAAL" then some (100000, 500000)
    else if og_type = "PROVINCIE" || og_type = "WATERSCHAP" then some (200000, 1500000)
    else none
  match vrange with
  | some (v0, vmax) =>
    let vmin := if europees then max v0 221000 else v0
    ⟨some vmin, some vmax, "bandbreedte",
     format_bedrag (some vmin) ++ "-" ++ format_bedrag (some vmax)⟩
  | none =>
    if europees then ⟨some 221000, none, "bandbreedte", "≥€221K"⟩
    else ⟨none, none, "onbekend", "?"⟩

/-- `schat_waarde` of `main.py` (legacy).  `geraamd` models the resolved
`geraamdeWaarde` field (from the tender record or its detail record);
values are integral, and a missing or non-positive value falls through to
the heuristic estimator, as the truthiness-and-`> 0` guard does.
`segmenten` is accepted but unused, exactly as in the source. -/
def schat_waarde (geraamd : Option Nat) (europees : Bool) (naam beschrijving og_type : String)
    (_segmenten : List String) : SchatResult :=
  match geraamd with
  | some g =>
    if g > 0 then ⟨some g, some g, "exact", format_bedrag (some g)⟩
    else schatHeuristiek europees naam beschrijving og_type
  | none => schatHeuristiek europees naam beschrijving og_type

/-- One signal record of the legacy `detect_signalen`. -/
structure Signaal where
  type : String
  tekst : String
  icoon : String
  deriving Repr, DecidableEq

/-- Scope a signal-list builder over an optional field ("when present,
emit what `f` says; when absent, nothing"), modelling the legacy Python
`None` checks on numeric fields. -/
def optScope {β : Type} (o : Option β) (f : β → List Signaal) : List Signaal :=
  match o with
  | some v => f v
  | none => []

/-- `detect_signalen` of `main.py` (legacy).  The kans rules K1 and K2
live under the gate `msp_fit_score >= 0 and not is_app_software`; K3 is
outside it and requires `msp_fit_score > 20`.  `dagen` models the
`aantalDagenTotSluitingsDatum` field; Python truthiness of the numeric
fields is `≠ 0` on top of presence. -/
def detect_signalen (naam beschrijving type_code og_type : String) (segmenten : List String)
    (vereisten : List (String × String)) (waarde_min waarde_max : Option Nat)
    (dagen : Option Int) (msp_fit_score : Int) : List Signaal :=
  let combined := lowerStr naam ++ " " ++ lowerStr beschrijving
  let real_segments := segmenten.filter (fun s => s ≠ "Full-service IT-partner")
  let verplichte := vereisten.filter (fun p => p.2 = "verplicht" || p.2 = "waarschijnlijk")
  let s1 :=
    if (og_type = "ONDERWIJS" || og_type = "PUBLIEK_SOCIAAL" || og_type = "OVERIG")
        && verplichte.length ≥ 3 then
      [⟨"disproportioneel",
        "Zware eisen voor kleine opdrachtgever (" ++ toString verplichte.length ++
        " certificeringen verwacht)", "⚠️"⟩]
    else []
  let s2 :=
    optScope waarde_max (fun v =>
      if v ≠ 0 && v ≤ 300000 && real_segments.length ≥ 3 then
        [⟨"disproportioneel",
          "Brede scope (" ++ toString real_segments.length ++
          " segmenten) voor beperkt budget (" ++ format_bedrag (some v) ++ ")", "⚠️"⟩]
      else [])
  let s3 :=
    if type_code = "L" &&
        ["beheer", "onderhoud", "support", "service", "hosting", "managed"].any
          (fun h => containsSub combined h) then
      [⟨"disproportioneel", "Getypeerd als Levering, maar scope beschrijft dienstverlening", "⚠️"⟩]
    else []
  let werkplek := segmenten.contains "Werkplek & Eindgebruikersbeheer"
  let security := segmenten.contains "Cybersecurity & Informatiebeveiliging"
  let s4 :=
    if werkplek && security then
      [⟨"opvallend", "Werkplek met security-focus — kijk naar verhouding scope vs. eisen", "🧩"⟩]
    else []
  let s5 :=
    if og_type = "GR" then
      [⟨"opvallend", "Meerdere organisaties, één contract — check governance en complexiteit", "🧩"⟩]
    else []
  let s6 :=
    optScope dagen (fun d =>
      if real_segments.length ≥ 3 && d ≠ 0 && d < 21 then
        [⟨"opvallend",
          "Complexe scope (" ++ toString real_segments.length ++
          " segmenten) maar korte inschrijftermijn (" ++ toString d ++ " dagen)", "🧩"⟩]
      else [])
  let s7 :=
    if ["huidige leverancier", "transitie", "migratie van", "overgang van",
        "contract loopt af"].any (fun h => containsSub combined h) then
      [⟨"opvallend", "Mogelijke leverancierswisseling — check transitierisico", "🧩"⟩]
    else []
  let is_app_software := APP_SOFTWARE_INDICATORS.any (fun kw => containsSub combined kw)
  let k1k2 :=
    if msp_fit_score ≥ 0 && !is_app_software then
      (if (og_type = "GEMEENTE" || og_type = "GR" || og_type = "PROVINCIE"
            || og_type = "WATERSCHAP")
          && werkplek && type_code = "D"
          && (match waarde_min with
              | some v => v ≠ 0 && v ≥ 200000
              | none => false) then
        [⟨"kans", "Sweet spot MSP — overheid + werkplekbeheer + diensten + substantiële waarde", "✅"⟩]
      else []) ++
      (if (og_type = "GEMEENTE" || og_type = "GR" || og_type = "PROVINCIE"
            || og_type = "WATERSCHAP" || og_type = "RIJK" || og_type = "ZBO")
          && segmenten.contains "Cloud & Hosting" && type_code = "D" then
        [⟨"kans", "Cloud/hosting bij overheid — groeimarkt voor MSP's", "✅"⟩]
      else [])
    else []
  let k3 :=
    if msp_fit_score > 20 &&
        (match waarde_min with
         | some v => v ≠ 0 && v ≥ 500000
         | none => false) then
      [⟨"kans",
        "MSP-relevant met subsantiële waarde (" ++ format_bedrag waarde_min ++ "+)", "✅"⟩]
    else []
  s1 ++ s2 ++ s3 ++ s4 ++ s5 ++ s6 ++ s7 ++ k1k2 ++ k3

-- ── app/main.py: the `_format_tender` wrapper ───────────────────────────

/-- The parameter names of `estimate_value` as declared in
`app/segments.py`. -/
def estimate_value_params : List String :=
  ["europees", "type_opdracht", "opdrachtgever_type", "segments", "naam", "beschrijving"]

/-- The parameter names of `detect_signals` as declared in
`app/segments.py`. -/
def detect_signals_params : List String :=
  ["naam", "beschrijving", "opdrachtgever", "opdrachtgever_type", "type_opdracht",
   "europees", "segments", "certifications", "expected_requirements", "estimated_value"]

/-- The keyword-argument names `_format_tender` (`app/main.py`) passes to
`estimate_value`. -/
def format_tender_estimate_value_kwargs : List String := ["raw_tender"]

/-- The keyword-argument names `_format_tender` (`app/main.py`) passes to
`detect_signals`. -/
def format_tender_detect_signals_kwargs : List String := ["sluitings_datum", "msp_fit_score"]

/-- Python call validity: every keyword argument must name a declared
parameter (neither callee declares `**kwargs`); otherwise the call raises
`TypeError` before the callee body runs. -/
def acceptsKwargs (params kwargs : List String) : Bool :=
  kwargs.all (fun k => params.contains k)

/-- `_format_tender` of `app/main.py`, modelled at the level of Python
call semantics: the earlier component calls are valid positional calls,
and the `estimate_value`/`detect_signals` calls are guarded by the
keyword-argument check Python performs at each call site. -/
def format_tender (t : RawTender) : Except String EnrichmentResult :=
  if !acceptsKwargs estimate_value_params format_tender_estimate_value_kwargs then
    Except.error "TypeError: estimate_value() got an unexpected keyword argument"
  else if !acceptsKwargs detect_signals_params format_tender_detect_signals_kwargs then
    Except.error "TypeError: detect_signals() got an unexpected keyword argument"
  else Except.ok (enrich t)

-- ── Inputs and spec-side predicates used by the claim theorems ──────────

/-- Sample tender used by witness instantiations. -/
def sampleTender : RawTender :=
  { naam := "SaaS Cloud Platform voor Gemeente"
    beschrijving := "Levering van een SaaS cloud hosting platform voor IT-beheer"
    opdrachtgever := "Gemeente Amsterdam"
    type_opdracht := "Diensten"
    europees := true
    cpv_codes := ["72000000-5"] }

/-- The claim's decision rule for one segment: a strong keyword or a CPV
prefix match alone, or else a weak keyword together with a CPV prefix
match. -/
def segmentAssigned (naam beschrijving : String) (cpvs : List String)
    (c : SegmentConfig) : Bool :=
  (text_has_any (naam ++ " " ++ beschrijving) c.strong || cpv_matches cpvs c.cpv)
  || (text_has_any (naam ++ " " ++ beschrijving) c.weak && cpv_matches cpvs c.cpv)

/-- Tender exhibiting the missing opportunity gate of the refined
pipeline: the text carries a software-product-delivery indicator
("salarisverwerking") and physical-infrastructure terms, giving a
negative MSP-fit score, yet the sweet-spot opportunity fires. -/
def c9tender : RawTender :=
  { naam := "Werkplekbeheer"
    beschrijving := "salarisverwerking beheer civiel"
    opdrachtgever := "Gemeente Emmen"
    type_opdracht := ""
    europees := false
    cpv_codes := [] }

/-- Decidable check used by a witness: no signal of the legacy detector
has the opportunity type. -/
def kansFree (l : List Signaal) : Bool :=
  l.all (fun s => s.type != "kans")

-- ── Sanity examples against the repository's own test suite ─────────────

example : matches_cpv "72000000-5" = true := by decide
example : matches_cpv "72413000-8" = true := by decide
example : matches_cpv "45000000-7" = false := by decide
example : matches_cpv "99999999" = false := by decide
example : (score_tender "SaaS cloud hosting" "" ["72000000-5"]).level = "hoog" := by decide
example : (score_tender "" "" ["48000000-8"]).cpv_bonus = 25 := by decide
example : (score_tender "HERP DERP" "" []).matched_keywords = [] := by decide
example : detect_segments "Werkplekbeheer en hosting" "informatiebeveiliging" [] =
    ["Werkplek & Eindgebruikersbeheer", "Cloud & Hosting", "Cybersecurity", FULL_SERVICE_LABEL] := by
  decide
example : detect_segments "Kantoormeubelen" "Levering van meubilair" [] = [] := by decide
example : (score_msp_fit "" "salarisverwerking hosting" "Diensten" "GEMEENTE" []).score = -5 := by
  decide
example : classify_opdrachtgever "Gemeente Amsterdam" = "GEMEENTE" := by decide
example : classify_opdrachtgever "RWS Midden-Nederland" = "RIJK_VITAAL" := by decide
example : classify_opdrachtgever "GR Drechtsteden" = "GR" := by decide
example : classify_opdrachtgever "Stichting Openbaar Onderwijs" = "ONDERWIJS" := by decide
example : classify_opdrachtgever "Acme BV" = "OVERIG" := by decide
example : (detect_certifications "ISO-27001 en BIO" "").map (fun c => c.name) =
    ["ISO 27001", "BIO"] := by decide
example : (detect_certifications "informatiebeveiliging" "").map (fun c => c.name) =
    ["ISO 27001?"] := by decide
example : get_expected_requirements "Universiteit Twente" ["Cybersecurity"] =
    [⟨"ISO 27001", "security", "waarschijnlijk"⟩, ⟨"AVG/DPIA", "security", "waarschijnlijk"⟩] := by
  decide
example : estimate_value true "Werken" "GEMEENTE" ["Applicatiebeheer"] "" "" =
    ⟨some 5538000, some 16614000, "€5.5M-16.6M", "hoog"⟩ := by decide
example : estimate_value false "" "GEMEENTE" ["Cloud & Hosting"] "" "" =
    ⟨some 200000, some 1000000, "€200K-1M", "midden"⟩ := by decide
example : keyword_in_text "DWR" "de dwr omgeving" = true := by decide
example : keyword_in_text "dwr" "bedwrijf" = false := by decide
example : keyword_in_text "werkplek" "werkplekbeheer" = true := by decide
example : (calculate_msp_fit "hosting" "salarisverwerking" "D" "GEMEENTE" []).1 = 5 := by decide
example : schat_waarde (some 350000) true "x" "y" "GEMEENTE" [] =
    ⟨some 350000, some 350000, "exact", "€350K"⟩ := by decide
example : format_bedrag (some 5538000) = "€5.5M" := by decide

-- ── Helper lemmas ───────────────────────────────────────────────────────

/-- Three-way level mapping: the first branch is taken iff its guard
holds. -/
lemma if3_eq_top (s : Int) (c₁ c₂ : Int → Prop) [DecidablePred c₁] [DecidablePred c₂]
    (a b c : String) (hab : a ≠ b) (hac : a ≠ c) :
    ((if c₁ s then a else if c₂ s then b else c) = a) ↔ c₁ s := by
  split_ifs with h1 h2
  · simp [h1]
  · simp [h1, hab.symm]
  · simp [h1, hac.symm]

/-- Three-way level mapping: the middle branch characterisation. -/
lemma if3_eq_mid (s : Int) (c₁ c₂ : Int → Prop) [DecidablePred c₁] [DecidablePred c₂]
    (a b c : String) (hab : a ≠ b) (hbc : b ≠ c) :
    ((if c₁ s then a else if c₂ s then b else c) = b) ↔ (¬ c₁ s ∧ c₂ s) := by
  split_ifs with h1 h2
  · simp [h1, hab]
  · simp [h1, h2]
  · simp [h1, h2, hbc.symm]

/-- Three-way level mapping: the last branch characterisation. -/
lemma if3_eq_bot (s : Int) (c₁ c₂ : Int → Prop) [DecidablePred c₁] [DecidablePred c₂]
    (a b c : String) (hac : a ≠ c) (hbc : b ≠ c) :
    ((if c₁ s then a else if c₂ s then b else c) = c) ↔ (¬ c₁ s ∧ ¬ c₂ s) := by
  split_ifs with h1 h2
  · simp [h1, hac]
  · simp [h1, h2, hbc]
  · simp [h1, h2]

-- ── C1 ──────────────────────────────────────────────────────────────────

/-- C1: every enrichment component (score_tender, detect_segments,
classify_opdrachtgever, detect_certifications, get_expected_requirements,
score_msp_fit, estimate_value, detect_signals) is a pure function of its
input plus the static rule tables: two invocations on equal inputs return
equal outputs, and so does the composed pipeline. -/
theorem C1_pipeline_deterministic (a b : RawTender) (h : a = b) :
    score_tender a.naam a.beschrijving a.cpv_codes
      = score_tender b.naam b.beschrijving b.cpv_codes ∧
    detect_segments a.naam a.beschrijving a.cpv_codes
      = detect_segments b.naam b.beschrijving b.cpv_codes ∧
    classify_opdrachtgever a.opdrachtgever = classify_opdrachtgever b.opdrachtgever ∧
    detect_certifications a.naam a.beschrijving
      = detect_certifications b.naam b.beschrijving ∧
    get_expected_requirements a.opdrachtgever (detect_segments a.naam a.beschrijving a.cpv_codes)
      = get_expected_requirements b.opdrachtgever (detect_segments b.naam b.beschrijving b.cpv_codes) ∧
    score_msp_fit a.naam a.beschrijving a.type_opdracht (classify_opdrachtgever a.opdrachtgever)
        (detect_segments a.naam a.beschrijving a.cpv_codes)
      = score_msp_fit b.naam b.beschrijving b.type_opdracht (classify_opdrachtgever b.opdrachtgever)
        (detect_segments b.naam b.beschrijving b.cpv_codes) ∧
    estimate_value a.europees a.type_opdracht (classify_opdrachtgever a.opdrachtgever)
        (detect_segments a.naam a.beschrijving a.cpv_codes) a.naam a.beschrijving
      = estimate_value b.europees b.type_opdracht (classify_opdrachtgever b.opdrachtgever)
        (detect_segments b.naam b.beschrijving b.cpv_codes) b.naam b.beschrijving ∧
    enrich a = enrich b := by
  subst h
  exact ⟨rfl, rfl, rfl, rfl, rfl, rfl, rfl, rfl⟩

/-- Witness for C1 at a concrete tender: the hypothesis `a = b` is
discharged by `rfl` at `sampleTender`. -/
theorem C1_pipeline_deterministic_witness :
    enrich sampleTender = enrich sampleTender :=
  (C1_pipeline_deterministic sampleTender sampleTender rfl).2.2.2.2.2.2.2

-- ── C2 ──────────────────────────────────────────────────────────────────

/-- C2: for every title, description and CPV-code list, `score_tender`
returns the clamp to [0,100] of 15 per matched high keyword, +5 per
matched medium keyword, −10 per matched negative keyword, +25 flat bonus
when any CPV code's stripped numeric part starts with 72/48/302/642
(each keyword counted once, however often it occurs, since whole keywords
of the table are counted); the level is "hoog" iff score ≥ 50, "midden"
iff 20 ≤ score < 50, "laag" otherwise, and the score lies in [0,100]. -/
theorem C2_score_tender_spec (title description : String) (cpvs : List String) :
    (score_tender title description cpvs).score =
      max 0 (min 100
        (((HIGH_KEYWORDS.filter (fun kw => kwSearchCI kw (title ++ " " ++ description))).length : Int) * 15
         + ((MEDIUM_KEYWORDS.filter (fun kw => kwSearchCI kw (title ++ " " ++ description))).length : Int) * 5
         - ((SCORING_NEGATIVE_KEYWORDS.filter (fun kw => kwSearchCI kw (title ++ " " ++ description))).length : Int) * 10
         + (if cpvs.any (fun code => IT_CPV_PREFIXES.any (fun p => strStarts (beforeDash code) p))
            then 25 else 0))) ∧
    0 ≤ (score_tender title description cpvs).score ∧
    (score_tender title description cpvs).score ≤ 100 ∧
    ((score_tender title description cpvs).level = "hoog"
      ↔ 50 ≤ (score_tender title description cpvs).score) ∧
    ((score_tender title description cpvs).level = "midden"
      ↔ 20 ≤ (score_tender title description cpvs).score
        ∧ (score_tender title description cpvs).score < 50) ∧
    ((score_tender title description cpvs).level = "laag"
      ↔ (score_tender title description cpvs).score < 20) := by
  simp only [score_tender, cpv_bonus]
  refine ⟨by trivial, ?_, ?_, ?_, ?_, ?_⟩
  · exact le_max_left 0 _
  · exact max_le (by omega) (min_le_left 100 _)
  · exact (if3_eq_top _ (fun s => s ≥ 50) (fun s => s ≥ 20) "hoog" "midden" "laag"
      (by decide) (by decide))
  · have h := if3_eq_mid (max 0 (min 100
      (((HIGH_KEYWORDS.filter (fun kw => kwSearchCI kw (title ++ " " ++ description))).length : Int) * 15
       + ((MEDIUM_KEYWORDS.filter (fun kw => kwSearchCI kw (title ++ " " ++ description))).length : Int) * 5
       - ((SCORING_NEGATIVE_KEYWORDS.filter (fun kw => kwSearchCI kw (title ++ " " ++ description))).length : Int) * 10
       + (if cpvs.any (fun code => IT_CPV_PREFIXES.any (fun p => strStarts (beforeDash code) p))
          then 25 else 0))))
      (fun s => s ≥ 50) (fun s => s ≥ 20) "hoog" "midden" "laag" (by decide) (by decide)
    rw [h]
    omega
  · have h := if3_eq_bot (max 0 (min 100
      (((HIGH_KEYWORDS.filter (fun kw => kwSearchCI kw (title ++ " " ++ description))).length : Int) * 15
       + ((MEDIUM_KEYWORDS.filter (fun kw => kwSearchCI kw (title ++ " " ++ description))).length : Int) * 5
       - ((SCORING_NEGATIVE_KEYWORDS.filter (fun kw => kwSearchCI kw (title ++ " " ++ description))).length : Int) * 10
       + (if cpvs.any (fun code => IT_CPV_PREFIXES.any (fun p => strStarts (beforeDash code) p))
          then 25 else 0))))
      (fun s => s ≥ 50) (fun s => s ≥ 20) "hoog" "midden" "laag" (by decide) (by decide)
    rw [h]
    omega

-- ── C3 ──────────────────────────────────────────────────────────────────

/-- Boolean exclusion: if one side of each boundary pair agrees in
word-ness, the conjunction of the two boundary assertions fails. -/
lemma bool_excl (a b c d : Bool) :
    ((a == b) || (c == d)) = true → ((a != b) && (c != d)) = false := by
  revert a b c d
  decide

/-- A position whose occurrence of `pat` fails a word boundary is not a
match position of the `\b pat \b` regex. -/
lemma strictlyInside_not_match (pat : List Char) (prev : Option Char) (s : List Char)
    (h : strictlyInsideAt pat prev s = true) : matchWordAt pat prev s = false := by
  cases pat with
  | nil => simp [matchWordAt]
  | cons p ps =>
    simp only [strictlyInsideAt, matchWordAt] at h ⊢
    cases hstrip : stripLit (p :: ps) s with
    | none => simp [hstrip]
    | some rest =>
      rw [hstrip] at h
      exact bool_excl _ _ _ _ h

/-- If every occurrence of `pat` in the remaining text fails a word
boundary, the regex search finds no match. -/
lemma occursOnlyInside_no_search (pat : List Char) (s : List Char) :
    ∀ prev : Option Char, occursOnlyInside pat prev s = true →
      scanText (matchWordAt pat) prev s = false := by
  induction s with
  | nil =>
    intro prev h
    simp only [occursOnlyInside] at h
    simpa [scanText] using strictlyInside_not_match pat prev [] h
  | cons c rest ih =>
    intro prev h
    simp only [occursOnlyInside, Bool.and_eq_true] at h
    simp only [scanText, Bool.or_eq_false_iff]
    exact ⟨strictlyInside_not_match pat prev (c :: rest) h.1, ih (some c) h.2⟩

/-- Counterexample to C3: the matcher actually used by the refined
classification components, `_text_has_any`, is a plain substring test at
every keyword length: the 3-character strong keyword "dwr" of the
Werkplek segment matches strictly inside the word "bedwrijf" (every
occurrence fails a word boundary), and `detect_segments` therefore
assigns the Werkplek segment to that text. -/
theorem C3_counterexample :
    (lowerStr "dwr").data.length ≤ 4 ∧
    occursOnlyInside (lowerStr "dwr").data none "bedwrijf".data = true ∧
    text_has_any "bedwrijf" ["dwr"] = true ∧
    detect_segments "bedwrijf" "" [] = ["Werkplek & Eindgebruikersbeheer"] := by
  refine ⟨by decide, by decide, by decide, by decide⟩

/-- C3 (amended): the length-≤-4 whole-word rule lives in the legacy
matcher `keyword_in_text` of `main.py`, not in the refined
`_text_has_any`: for every keyword whose lowered form has at most 4
characters and every text in which that lowered keyword occurs only
inside longer words (every occurrence fails a word boundary), the legacy
matcher reports no match. -/
theorem C3_legacy_short_keyword_whole_word (kw text : String)
    (hlen : (lowerStr kw).data.length ≤ 4)
    (hins : occursOnlyInside (lowerStr kw).data none text.data = true) :
    keyword_in_text kw text = false := by
  simp only [keyword_in_text]
  rw [if_pos hlen]
  exact occursOnlyInside_no_search _ _ none hins

/-- Witness for C3 (amended) at kw = "dwr", text = "bedwrijf". -/
theorem C3_legacy_short_keyword_whole_word_witness :
    (lowerStr "dwr").data.length ≤ 4 ∧
    occursOnlyInside (lowerStr "dwr").data none "bedwrijf".data = true ∧
    keyword_in_text "dwr" "bedwrijf" = false :=
  ⟨by decide, by decide,
   C3_legacy_short_keyword_whole_word "dwr" "bedwrijf" (by decide) (by decide)⟩

-- ── C4 ──────────────────────────────────────────────────────────────────

/-- The two-branch filterMap of `detect_segments` is the filter of the
disjunction of the two branch guards. -/
lemma filterMap_two_if {α β : Type} (f g : α → Bool) (lbl : α → β) (l : List α) :
    l.filterMap (fun c => if f c then some (lbl c) else if g c then some (lbl c) else none)
      = (l.filter (fun c => f c || g c)).map lbl := by
  induction l with
  | nil => rfl
  | cons x xs ih =>
    by_cases hf : f x <;> by_cases hg : g x <;>
      simp [List.filterMap_cons, List.filter_cons, hf, hg, ih]

/-- C4: `detect_segments` assigns a segment iff a strong keyword is
present or a tender CPV code prefix-matches the segment's CPV list (CPV
alone sufficient), or else a weak keyword is present together with a CPV
prefix match; the synthetic "Full-service" label is appended last exactly
when at least 3 of the six base segments were assigned, and does not
count toward its own threshold. -/
theorem C4_detect_segments_rule (naam beschrijving : String) (cpvs : List String) :
    detect_segments naam beschrijving cpvs
      = (SEGMENTS.filter (segmentAssigned naam beschrijving cpvs)).map (fun c => c.label)
        ++ (if FULL_SERVICE_THRESHOLD ≤ (SEGMENTS.filter (segmentAssigned naam beschrijving cpvs)).length
            then [FULL_SERVICE_LABEL] else []) ∧
    (FULL_SERVICE_LABEL ∈ detect_segments naam beschrijving cpvs
      ↔ FULL_SERVICE_THRESHOLD ≤ (SEGMENTS.filter (segmentAssigned naam beschrijving cpvs)).length) := by
  have hbase :
      SEGMENTS.filterMap (fun config =>
        if text_has_any (naam ++ " " ++ beschrijving) config.strong
            || cpv_matches cpvs config.cpv then some config.label
        else if text_has_any (naam ++ " " ++ beschrijving) config.weak
            && cpv_matches cpvs config.cpv then some config.label
        else none)
      = (SEGMENTS.filter (segmentAssigned naam beschrijving cpvs)).map (fun c => c.label) :=
    filterMap_two_if _ _ _ SEGMENTS
  have hlabels : ∀ c ∈ SEGMENTS, c.label ≠ FULL_SERVICE_LABEL := by decide
  have hnot : FULL_SERVICE_LABEL ∉
      (SEGMENTS.filter (segmentAssigned naam beschrijving cpvs)).map (fun c => c.label) := by
    intro hmem
    rcases List.mem_map.mp hmem with ⟨c, hc, hlabel⟩
    exact hlabels c (List.mem_of_mem_filter hc) hlabel
  constructor
  · simp only [detect_segments]
    rw [hbase, List.length_map]
    by_cases h : FULL_SERVICE_THRESHOLD ≤
        (SEGMENTS.filter (segmentAssigned naam beschrijving cpvs)).length
    · rw [if_pos h, if_pos h]
    · rw [if_neg h, if_neg h, List.append_nil]
  · simp only [detect_segments]
    rw [hbase, List.length_map]
    by_cases h : FULL_SERVICE_THRESHOLD ≤
        (SEGMENTS.filter (segmentAssigned naam beschrijving cpvs)).length
    · simp [if_pos h, List.mem_append, h]
    · simp [if_neg h, hnot, h]

-- ── C5 ──────────────────────────────────────────────────────────────────

/-- A 3-element prefix check is exactly equality of the first 3 elements
(together with sufficient length). -/
lemma isPrefixOf_take3 (pre l : List Char) (hpre : pre.length = 3) :
    pre.isPrefixOf l = true ↔ (3 ≤ l.length ∧ l.take 3 = pre) := by
  rw [List.isPrefixOf_iff_prefix]
  constructor
  · intro h
    have h1 := h.length_le
    rw [hpre] at h1
    have h2 := List.prefix_iff_eq_take.mp h
    rw [hpre] at h2
    exact ⟨h1, h2.symm⟩
  · rintro ⟨h1, h2⟩
    rw [List.prefix_iff_eq_take, hpre]
    exact h2.symm

/-- Counterexample to C5 as stated: the reference set embedded from
`app/cpv_codes.py` has 36 codes, not 37 (the repository's own
`test_cpv_codes.py` asserts 36; the "37" in the module comment is
wrong). -/
theorem C5_counterexample : CPV_CODES.length = 36 ∧ CPV_CODES.length ≠ 37 := by
  decide

/-- C5 (amended): `matches_cpv` strips everything from the first "-"
onward (and surrounding whitespace), returns true on exact membership in
the 36-code reference set, and otherwise returns true iff the code's
first 3 characters equal the first 3 characters of some reference code
ending in "00000"; in particular `matches_cpv "72413000-8"` is true via
the reference division code "72400000". -/
theorem C5_matches_cpv_rule (code : String) :
    (matches_cpv code = true ↔
      (CPV_CODES.contains (pyStrip (beforeDash code)) = true ∨
       ∃ ref, ref ∈ CPV_CODES ∧ strEnds ref "00000" = true ∧
         3 ≤ (pyStrip (beforeDash code)).data.length ∧
         (pyStrip (beforeDash code)).data.take 3 = ref.data.take 3)) ∧
    matches_cpv "72413000-8" = true ∧
    "72400000" ∈ CPV_CODES ∧ strEnds "72400000" "00000" = true ∧
    (pyStrip (beforeDash "72413000-8")).data.take 3 = "72400000".data.take 3 := by
  have reflen : ∀ r ∈ CPV_CODES, r.data.length = 8 := by decide
  refine ⟨?_, by decide, by decide, by decide, by decide⟩
  simp only [matches_cpv]
  by_cases hc : CPV_CODES.contains (pyStrip (beforeDash code)) = true
  · rw [if_pos hc]
    exact iff_of_true rfl (Or.inl hc)
  · rw [if_neg hc, List.any_eq_true]
    constructor
    · rintro ⟨ref, href, hmatch⟩
      rw [Bool.and_eq_true] at hmatch
      obtain ⟨hstart, hends⟩ := hmatch
      have htakelen : (ref.data.take 3).length = 3 := by
        rw [List.length_take, reflen ref href]
        decide
      have h3 := (isPrefixOf_take3 (ref.data.take 3) (pyStrip (beforeDash code)).data htakelen).mp hstart
      exact Or.inr ⟨ref, href, hends, h3.1, h3.2⟩
    · rintro (h | ⟨ref, href, hends, hlen3, htake⟩)
      · exact absurd h hc
      · refine ⟨ref, href, ?_⟩
        rw [Bool.and_eq_true]
        have htakelen : (ref.data.take 3).length = 3 := by
          rw [List.length_take, reflen ref href]
          decide
        exact ⟨(isPrefixOf_take3 _ _ htakelen).mpr ⟨hlen3, htake⟩, hends⟩

-- ── C6 ──────────────────────────────────────────────────────────────────

/-- Counterexample to C6: in the refined `score_msp_fit` the +15 infra
bonus is NOT mutually exclusive with the software-product-delivery
penalty.  The text "salarisverwerking compute" matches both the
`_SOFTWARE_DELIVERY` list and the `_MSP_INFRA` list, and the resulting
score is −10 = +15 − 25: the +15 bonus is included, where the claim
predicts a score of −25 (penalty only). -/
theorem C6_counterexample :
    text_has_any (lowerStr ("" ++ " " ++ "salarisverwerking compute")) SOFTWARE_DELIVERY = true ∧
    text_has_any (lowerStr ("" ++ " " ++ "salarisverwerking compute")) MSP_INFRA = true ∧
    (score_msp_fit "" "salarisverwerking compute" "" "OVERIG" []).score = -10 ∧
    (-10 : Int) ≠ -25 := by
  refine ⟨by decide, by decide, by decide, by decide⟩

/-- C6 (amended): the infra-bonus/product-delivery mutual exclusion is
implemented in the legacy `calculate_msp_fit` of `main.py`, not in the
refined `score_msp_fit`: whenever an APP_SOFTWARE indicator matches the
lowered text, the legacy msp-core +15 bonus is withheld (regardless of
core keywords in the text) and the −25 delivery penalty applies. -/
theorem C6_legacy_mutual_exclusion (naam beschrijving type_code og_type : String)
    (segmenten : List String)
    (happ : APP_SOFTWARE_INDICATORS.any
        (fun kw => containsSub (lowerStr naam ++ " " ++ lowerStr beschrijving) kw) = true) :
    (calculate_msp_fit naam beschrijving type_code og_type segmenten).1 =
      (if type_code = "D" then 20 else 0)
      + (if og_type = "GEMEENTE" || og_type = "PROVINCIE" || og_type = "WATERSCHAP"
            || og_type = "GR" then 10 else 0)
      + (if (segmenten.filter (fun s => s ≠ "Full-service IT-partner")).length ≥ 2 then 5 else 0)
      - 25
      - (if PHYSICAL_INFRA_INDICATORS.any
            (fun kw => containsSub (lowerStr naam ++ " " ++ lowerStr beschrijving) kw)
         then 10 else 0)
      - (if type_code = "L" then 10 else 0) := by
  simp [calculate_msp_fit, happ]

/-- Witness for C6 (amended): "salarisverwerking hosting" contains the
core keyword "hosting" yet receives no +15 bonus. -/
theorem C6_legacy_mutual_exclusion_witness :
    APP_SOFTWARE_INDICATORS.any
        (fun kw => containsSub (lowerStr "" ++ " " ++ lowerStr "salarisverwerking hosting") kw) = true ∧
    (calculate_msp_fit "" "salarisverwerking hosting" "D" "GEMEENTE" []).1 =
      (if ("D" : String) = "D" then 20 else 0)
      + (if ("GEMEENTE" : String) = "GEMEENTE" || ("GEMEENTE" : String) = "PROVINCIE"
            || ("GEMEENTE" : String) = "WATERSCHAP" || ("GEMEENTE" : String) = "GR" then 10 else 0)
      + (if (([] : List String).filter (fun s => s ≠ "Full-service IT-partner")).length ≥ 2 then 5 else 0)
      - 25
      - (if PHYSICAL_INFRA_INDICATORS.any
            (fun kw => containsSub (lowerStr "" ++ " " ++ lowerStr "salarisverwerking hosting") kw)
         then 10 else 0)
      - (if ("D" : String) = "L" then 10 else 0) :=
  ⟨by decide,
   C6_legacy_mutual_exclusion "" "salarisverwerking hosting" "D" "GEMEENTE" [] (by decide)⟩

-- ── C7 ──────────────────────────────────────────────────────────────────

/-- C7: whenever the officially-stated value is present and positive, the
value estimator (`schat_waarde`, the implementation carrying the
stated-value path) returns it directly as an exact point estimate with
min = max = the stated value, bypassing the lookup table and the
EU-threshold floor (the conclusion does not depend on `europees`,
`og_type` or the segments). -/
theorem C7_stated_value_exact (geraamd : Option Nat) (g : Nat) (europees : Bool)
    (naam beschrijving og_type : String) (segmenten : List String)
    (hg : geraamd = some g) (hpos : 0 < g) :
    schat_waarde geraamd europees naam beschrijving og_type segmenten =
      ⟨some g, some g, "exact", format_bedrag (some g)⟩ := by
  subst hg
  simp [schat_waarde, hpos]

/-- Witness for C7 at a stated value of 350000. -/
theorem C7_stated_value_exact_witness :
    (some 350000 : Option Nat) = some 350000 ∧ 0 < 350000 ∧
    schat_waarde (some 350000) true "Datacenter migratie" "hosting" "GEMEENTE" ["Cloud & Hosting"] =
      ⟨some 350000, some 350000, "exact", format_bedrag (some 350000)⟩ :=
  ⟨rfl, by decide,
   C7_stated_value_exact (some 350000) 350000 true "Datacenter migratie" "hosting" "GEMEENTE"
     ["Cloud & Hosting"] rfl (by decide)⟩

-- ── C8 ──────────────────────────────────────────────────────────────────

/-- Folding `min` over first components never exceeds the seed. -/
lemma foldl_min_le_init (ps : List (Nat × Nat)) :
    ∀ a : Nat, ps.foldl (fun a q => min a q.1) a ≤ a := by
  induction ps with
  | nil => intro a; simp
  | cons q qs ih =>
    intro a
    calc (q :: qs).foldl (fun a q => min a q.1) a
        = qs.foldl (fun a q => min a q.1) (min a q.1) := rfl
      _ ≤ min a q.1 := ih _
      _ ≤ a := min_le_left _ _

/-- Folding `max` over second components never drops below the seed. -/
lemma init_le_foldl_max (ps : List (Nat × Nat)) :
    ∀ a : Nat, a ≤ ps.foldl (fun a q => max a q.2) a := by
  induction ps with
  | nil => intro a; simp
  | cons q qs ih =>
    intro a
    calc a ≤ max a q.2 := le_max_left _ _
      _ ≤ qs.foldl (fun a q => max a q.2) (max a q.2) := ih _
      _ = (q :: qs).foldl (fun a q => max a q.2) a := rfl

/-- A successful association-list lookup returns one of the stored
values. -/
lemma lookupBy_snd_mem {κ α : Type} [DecidableEq κ] (l : List (κ × α)) (k : κ) (v : α) :
    lookupBy l k = some v → v ∈ l.map Prod.snd := by
  induction l with
  | nil => intro h; simp [lookupBy] at h
  | cons p t ih =>
    rcases p with ⟨k', v'⟩
    intro h
    simp only [lookupBy] at h
    by_cases hk : k' = k
    · rw [if_pos hk] at h
      injection h with h
      simp [h.symm]
    · rw [if_neg hk] at h
      simpa using Or.inr (List.mem_map.mp (ih h) |>.elim (fun w hw => List.mem_map.mpr ⟨w, hw.1, hw.2⟩) |> id)

/-- Every range the matrix lookup can return has min ≤ max. -/
lemma ranges_min_le_max (og : String) (cats : List String) :
    ∀ v ∈ estimate_value_ranges og cats, v.1 ≤ v.2 := by
  intro v hv
  rcases List.mem_filterMap.mp hv with ⟨cat, _, hlook⟩
  have hall : ∀ v ∈ VALUE_MATRIX.map Prod.snd, v.1 ≤ v.2 := by decide
  exact hall v (lookupBy_snd_mem _ _ _ hlook)

/-- The aggregation-and-EU-floor tail preserves min ≤ max: the widening
branch replaces the maximum with three times the floored minimum. -/
lemma estimate_value_from_pairs_min_le_max (europees : Bool) (type_opdracht : String)
    (ne : Bool) (pairs : List (Nat × Nat)) (hp : ∀ v ∈ pairs, v.1 ≤ v.2) (m M : Nat)
    (hmin : (estimate_value_from_pairs europees type_opdracht ne pairs).min_value = some m)
    (hmax : (estimate_value_from_pairs europees type_opdracht ne pairs).max_value = some M) :
    m ≤ M := by
  cases pairs with
  | nil => simp [estimate_value_from_pairs] at hmin
  | cons p ps =>
    have h1 : ps.foldl (fun a q => min a q.1) p.1 ≤ p.1 := foldl_min_le_init ps p.1
    have h2 : p.2 ≤ ps.foldl (fun a q => max a q.2) p.2 := init_le_foldl_max ps p.2
    have hpp : p.1 ≤ p.2 := hp p (List.mem_cons_self p ps)
    simp only [estimate_value_from_pairs] at hmin hmax
    injection hmin with hmin
    injection hmax with hmax
    subst hmin
    subst hmax
    set A := ps.foldl (fun a q => min a q.1) p.1 with hA
    set B := ps.foldl (fun a q => max a q.2) p.2 with hB
    set F := (if containsSub (lowerStr type_opdracht) "werken" = true then EU_THRESHOLD_WERKEN
              else EU_THRESHOLD_DIENSTEN) with hF
    set m' := (if europees = true then max A F else A) with hm
    by_cases hcond : (europees && decide (B < m')) = true
    · rw [if_pos hcond]
      omega
    · rw [if_neg hcond]
      rcases Bool.eq_false_or_eq_true europees with heu | heu
      · rw [heu, Bool.true_and] at hcond
        have hBm : ¬ (B < m') := by simpa using hcond
        omega
      · have hmA : m' = A := by rw [hm, heu]; simp
        omega

/-- C8: whenever `estimate_value` returns a numeric range, the minimum is
at most the maximum: when the EU-threshold floor pushes the minimum above
the table-derived maximum, the maximum is widened to 3 × the floored
minimum instead of an inconsistent max < min range. -/
theorem C8_estimate_value_min_le_max (europees : Bool) (type_opdracht og naam besch : String)
    (segments : List String) (m M : Nat)
    (hmin : (estimate_value europees type_opdracht og segments naam besch).min_value = some m)
    (hmax : (estimate_value europees type_opdracht og segments naam besch).max_value = some M) :
    m ≤ M := by
  simp only [estimate_value] at hmin hmax
  by_cases hcase : ((seg_categories segments).isEmpty && og = "OVERIG") = true
  · rw [if_pos hcase] at hmin
    exact absurd hmin (by simp)
  · rw [if_neg hcase] at hmin hmax
    exact estimate_value_from_pairs_min_le_max _ _ _ _
      (ranges_min_le_max og _) m M hmin hmax

/-- Witness for C8 at an input exercising the widening branch: EU works
tender at a GEMEENTE with an application segment floors the minimum at
5 538 000 above the table maximum 500 000, so the maximum is widened. -/
theorem C8_estimate_value_min_le_max_witness :
    (estimate_value true "Werken" "GEMEENTE" ["Applicatiebeheer"] "" "").min_value
      = some 5538000 ∧
    (estimate_value true "Werken" "GEMEENTE" ["Applicatiebeheer"] "" "").max_value
      = some 16614000 ∧
    (5538000 : Nat) ≤ 16614000 :=
  ⟨by decide, by decide,
   C8_estimate_value_min_le_max true "Werken" "GEMEENTE" "" "" ["Applicatiebeheer"]
     5538000 16614000 (by decide) (by decide)⟩

-- ── C9 ──────────────────────────────────────────────────────────────────

/-- Counterexample to C9: the refined `detect_signals` evaluates the
"msp-kans" rules under no gate at all — on `c9tender` the composed
refined pipeline yields a negative MSP-fit score (−25) and a matching
software-product-delivery indicator, yet emits the "Sweet spot MSP"
opportunity signal. -/
theorem C9_counterexample :
    (enrich c9tender).msp_fit.score = -25 ∧
    text_has_any (lowerStr (c9tender.naam ++ " " ++ c9tender.beschrijving))
      SOFTWARE_DELIVERY = true ∧
    (enrich c9tender).signals.any (fun s => s.type == "msp-kans") = true ∧
    (enrich c9tender).signals.any (fun s => s.label == "Sweet spot MSP") = true := by
  refine ⟨by decide, by decide, by decide, by decide⟩

/-- An element of a guarded singleton is that singleton's element. -/
lemma eq_of_mem_ite_singleton {c : Prop} [Decidable c] {x s : Signaal}
    (h : s ∈ if c then [x] else []) : s = x := by
  by_cases hc : c
  · rw [if_pos hc] at h
    simpa using h
  · rw [if_neg hc] at h
    simp at h

/-- Type of an element of a guarded singleton differs from "kans" when
the singleton's does. -/
lemma type_ne_of_mem_ite_singleton {c : Prop} [Decidable c] {x s : Signaal}
    (h : s ∈ if c then [x] else []) (hx : x.type ≠ "kans") : s.type ≠ "kans" := by
  rw [eq_of_mem_ite_singleton h]
  exact hx

/-- Lift a per-value bound through `optScope`. -/
lemma type_ne_of_mem_optScope {β : Type} {o : Option β} {f : β → List Signaal} {s : Signaal}
    (h : s ∈ optScope o f) (hf : ∀ v s', s' ∈ f v → s'.type ≠ "kans") : s.type ≠ "kans" := by
  cases o with
  | none => simp [optScope] at h
  | some v => exact hf v s h

/-- With an APP_SOFTWARE indicator present, the legacy MSP-fit score is
at most 10 (+20 type, +10 client, +5 segments, −25 delivery at best). -/
lemma calculate_msp_fit_app_le (naam besch type_code og : String) (segs : List String)
    (happ : APP_SOFTWARE_INDICATORS.any
        (fun kw => containsSub (lowerStr naam ++ " " ++ lowerStr besch) kw) = true) :
    (calculate_msp_fit naam besch type_code og segs).1 ≤ 10 := by
  simp [calculate_msp_fit, happ]
  split_ifs <;> omega

/-- C9 (amended): the opportunity gate exists in the legacy
`detect_signalen` of `main.py`: with the MSP-fit score of
`calculate_msp_fit` for the same tender text, a negative score or a
matching software-product-delivery indicator means no "kans"-type signal
is emitted — the two gated rules check the gate directly, and the
high-value rule needs score > 20, which an APP_SOFTWARE match makes
impossible. -/
theorem C9_legacy_opportunity_gate (naam besch type_code og : String) (segs : List String)
    (vereisten : List (String × String)) (wmin wmax : Option Nat) (dagen : Option Int)
    (hgate : (calculate_msp_fit naam besch type_code og segs).1 < 0 ∨
             APP_SOFTWARE_INDICATORS.any
               (fun kw => containsSub (lowerStr naam ++ " " ++ lowerStr besch) kw) = true) :
    ∀ s ∈ detect_signalen naam besch type_code og segs vereisten wmin wmax dagen
        (calculate_msp_fit naam besch type_code og segs).1, s.type ≠ "kans" := by
  intro s hs
  simp only [detect_signalen, List.mem_append] at hs
  rcases hs with ((((((((h | h) | h) | h) | h) | h) | h) | h) | h)
  · exact type_ne_of_mem_ite_singleton h (by show "disproportioneel" ≠ "kans"; decide)
  · refine type_ne_of_mem_optScope h ?_
    intro v s' h'
    exact type_ne_of_mem_ite_singleton h' (by show "disproportioneel" ≠ "kans"; decide)
  · exact type_ne_of_mem_ite_singleton h (by show "disproportioneel" ≠ "kans"; decide)
  · exact type_ne_of_mem_ite_singleton h (by show "opvallend" ≠ "kans"; decide)
  · exact type_ne_of_mem_ite_singleton h (by show "opvallend" ≠ "kans"; decide)
  · refine type_ne_of_mem_optScope h ?_
    intro v s' h'
    exact type_ne_of_mem_ite_singleton h' (by show "opvallend" ≠ "kans"; decide)
  · exact type_ne_of_mem_ite_singleton h (by show "opvallend" ≠ "kans"; decide)
  · rcases hgate with hneg | happ
    · rw [if_neg ?hcond] at h
      · simp at h
      case hcond =>
        intro hcond
        rw [Bool.and_eq_true, decide_eq_true_eq] at hcond
        omega
    · rw [if_neg ?hcond2] at h
      · simp at h
      case hcond2 =>
        intro hcond
        rw [Bool.and_eq_true] at hcond
        rw [happ] at hcond
        simpa using hcond.2
  · rcases hgate with hneg | happ
    · rw [if_neg ?hcond3] at h
      · simp at h
      case hcond3 =>
        intro hcond
        rw [Bool.and_eq_true, decide_eq_true_eq] at hcond
        omega
    · have hle := calculate_msp_fit_app_le naam besch type_code og segs happ
      rw [if_neg ?hcond4] at h
      · simp at h
      case hcond4 =>
        intro hcond
        rw [Bool.and_eq_true, decide_eq_true_eq] at hcond
        omega

/-- Witness for C9 (amended): a payroll-system tender (APP_SOFTWARE
indicator present) emits no "kans" signal from the legacy detector. -/
theorem C9_legacy_opportunity_gate_witness :
    APP_SOFTWARE_INDICATORS.any
      (fun kw => containsSub (lowerStr "" ++ " " ++ lowerStr "salarisverwerking") kw) = true ∧
    kansFree (detect_signalen "" "salarisverwerking" "D" "GEMEENTE" ["Cloud & Hosting"] []
      (some 600000) none none
      (calculate_msp_fit "" "salarisverwerking" "D" "GEMEENTE" ["Cloud & Hosting"]).1) = true := by
  refine ⟨by decide, ?_⟩
  rw [kansFree, List.all_eq_true]
  intro s hs
  have := C9_legacy_opportunity_gate "" "salarisverwerking" "D" "GEMEENTE" ["Cloud & Hosting"] []
    (some 600000) none none (Or.inr (by decide)) s hs
  simpa using this

-- ── C10 ─────────────────────────────────────────────────────────────────

/-- C10: for every raw tender record, `_format_tender` raises a
`TypeError` before producing a result, because its `estimate_value` call
passes the keyword argument `raw_tender` (and its `detect_signals` call
passes `sluitings_datum` and `msp_fit_score`), none of which the callee
signatures in `app/segments.py` declare; hence no tender is ever
successfully enriched through this entry point. -/
theorem C10_format_tender_always_type_error (t : RawTender) :
    format_tender t
      = Except.error "TypeError: estimate_value() got an unexpected keyword argument" ∧
    acceptsKwargs estimate_value_params format_tender_estimate_value_kwargs = false ∧
    acceptsKwargs detect_signals_params format_tender_detect_signals_kwargs = false :=
  ⟨rfl, by decide, by decide⟩
